import Mathlib

/-!
# Verification of the data-discovery playbook's persistence and scoring logic

This file gives a shallow embedding, in Lean 4, of the two algorithmic parts of
`src/data_playbook_app_v1.py`:

* the session-state JSON serializer (`save_app_state_json` / `load_app_state_json`,
  together with the relevant defaults of `init_session_state`), and
* the data-quality scorer (`run_mock_dama_checks` / `simulate_sql_analysis`).

Modelling conventions (Python → Lean):

* JSON-serializable Python values are the inductive `PyVal`; Python `None` is
  `PyVal.null`, floats are modelled by exact rationals, dicts by ordered
  association lists with string keys.  `json.dump` followed by `json.load`
  is the function `dumpJson`, whose only effect on such values is to turn
  tuples into lists.
* A pandas `DataFrame` is the structure `Frame` (row-major, with an explicit
  index column and optional index name).  Cell values are `Cell`; NaN/NaT and
  `None` cells are all modelled by `Cell.null`; date-like cell values
  (datetimes and strings that `pd.to_datetime` parses) are `Cell.date` with an
  abstract integer time coordinate measured in days; numeric values and
  numeric strings (which `pd.to_numeric` parses) are `Cell.num`.
* `DataFrame.to_json(orient='split')` is modelled by `toSplit`, which produces
  the structured content (`Split`) of the emitted string; `pd.read_json` of
  such a string is `ofSplit`.  In the serialized document (`SavedVal`) the
  string holding a split-orient table is the constructor `SavedVal.frameText`,
  and every other value is `SavedVal.py`.  A `SavedVal.py (.str s)` under a
  table key models a string that `pd.read_json` rejects.
* `pd.Timestamp` values are modelled by an integer instant; `Timestamp.isoformat`
  is `tsToString` (decimal rendering of the instant) and `pd.Timestamp(str)`
  is `parseTimestamp`, which inverts it and rejects non-numeric text.
* Streamlit's session dictionary is an association list `List (String × SVal)`,
  where `SVal` tags the runtime shape of each stored value (`DataFrame`,
  dict-of-`DataFrame`s, timestamp-keyed history, plain JSON-able value,
  numpy scalar/array, or a non-serializable object `SVal.other`).
* Python exceptions in the scorer are `Except String`; a `try/except` block is
  modelled by matching on the `Except` value of the guarded region, while code
  outside any `try` propagates errors through the `Except` monad.
-/

/-- JSON-serializable Python values (`None`, `bool`, `int`, `float`, `str`,
`list`, `tuple`, `dict` with string keys).  Floats are modelled by exact
rationals. -/
inductive PyVal where
  | null
  | bool (b : Bool)
  | int (n : Int)
  | float (q : ℚ)
  | str (s : String)
  | list (xs : List PyVal)
  | tuple (xs : List PyVal)
  | dict (kvs : List (String × PyVal))

mutual
/-- The effect of `json.dump` followed by `json.load` on a JSON-serializable
Python value: tuples are written as JSON arrays and read back as lists;
everything else is reproduced unchanged. -/
def dumpJson : PyVal → PyVal
  | .null => .null
  | .bool b => .bool b
  | .int n => .int n
  | .float q => .float q
  | .str s => .str s
  | .list xs => .list (dumpJsonList xs)
  | .tuple xs => .list (dumpJsonList xs)
  | .dict kvs => .dict (dumpJsonDict kvs)

/-- `dumpJson` mapped over the elements of a Python list or tuple. -/
def dumpJsonList : List PyVal → List PyVal
  | [] => []
  | x :: xs => dumpJson x :: dumpJsonList xs

/-- `dumpJson` mapped over the values of a Python dict. -/
def dumpJsonDict : List (String × PyVal) → List (String × PyVal)
  | [] => []
  | kv :: kvs => (kv.1, dumpJson kv.2) :: dumpJsonDict kvs
end

mutual
/-- `jsonShape v` holds when `v` contains no tuple anywhere: exactly the
values on which a JSON dump/load round trip is the identity.  These are the
"nested plain mappings/lists of JSON-representable leaves" and scalars. -/
def jsonShape : PyVal → Bool
  | .null | .bool _ | .int _ | .float _ | .str _ => true
  | .list xs => jsonShapeList xs
  | .tuple _ => false
  | .dict kvs => jsonShapeDict kvs

/-- `jsonShape` over the elements of a list. -/
def jsonShapeList : List PyVal → Bool
  | [] => true
  | x :: xs => jsonShape x && jsonShapeList xs

/-- `jsonShape` over the values of a dict. -/
def jsonShapeDict : List (String × PyVal) → Bool
  | [] => true
  | kv :: kvs => jsonShape kv.2 && jsonShapeDict kvs
end

theorem dumpJsonList_eq_of_forall {xs : List PyVal}
    (h : ∀ x ∈ xs, dumpJson x = x) : dumpJsonList xs = xs := by
  induction xs with
  | nil => rfl
  | cons x xs ih =>
      simp only [dumpJsonList, h x (List.mem_cons_self x xs)]
      rw [ih fun y hy => h y (List.mem_cons_of_mem x hy)]

theorem dumpJsonDict_eq_of_forall {kvs : List (String × PyVal)}
    (h : ∀ kv ∈ kvs, dumpJson kv.2 = kv.2) : dumpJsonDict kvs = kvs := by
  induction kvs with
  | nil => rfl
  | cons kv kvs ih =>
      simp only [dumpJsonDict, h kv (List.mem_cons_self kv kvs)]
      rw [ih fun y hy => h y (List.mem_cons_of_mem kv hy)]

theorem jsonShapeList_mem {xs : List PyVal} (h : jsonShapeList xs = true)
    {x : PyVal} (hx : x ∈ xs) : jsonShape x = true := by
  induction xs with
  | nil => cases hx
  | cons y ys ih =>
      simp only [jsonShapeList, Bool.and_eq_true] at h
      rcases List.mem_cons.1 hx with rfl | hx
      · exact h.1
      · exact ih h.2 hx

theorem jsonShapeDict_mem {kvs : List (String × PyVal)}
    (h : jsonShapeDict kvs = true) {kv : String × PyVal} (hkv : kv ∈ kvs) :
    jsonShape kv.2 = true := by
  induction kvs with
  | nil => cases hkv
  | cons y ys ih =>
      simp only [jsonShapeDict, Bool.and_eq_true] at h
      rcases List.mem_cons.1 hkv with rfl | hkv
      · exact h.1
      · exact ih h.2 hkv

/-- A JSON dump/load round trip leaves tuple-free values unchanged. -/
theorem dumpJson_eq_self : ∀ n (v : PyVal), sizeOf v ≤ n →
    jsonShape v = true → dumpJson v = v := by
  intro n
  induction n with
  | zero => intro v hv; cases v <;> simp_all
  | succ n ih =>
      intro v hv hshape
      cases v with
      | null | bool _ | int _ | float _ | str _ => rfl
      | tuple xs => simp [jsonShape] at hshape
      | list xs =>
          simp only [dumpJson]
          rw [dumpJsonList_eq_of_forall]
          intro x hx
          have hsz : sizeOf x < sizeOf (PyVal.list xs) := by
            have := List.sizeOf_lt_of_mem hx
            simp only [PyVal.list.sizeOf_spec]
            try omega
          exact ih x (by omega) (jsonShapeList_mem hshape hx)
      | dict kvs =>
          simp only [dumpJson]
          rw [dumpJsonDict_eq_of_forall]
          intro kv hkv
          have hsz : sizeOf kv.2 < sizeOf (PyVal.dict kvs) := by
            have h1 := List.sizeOf_lt_of_mem hkv
            have h2 : sizeOf kv.2 < sizeOf kv := by
              cases kv; simp; try omega
            simp only [PyVal.dict.sizeOf_spec]
            omega
          exact ih kv.2 (by omega) (jsonShapeDict_mem hshape hkv)

theorem dumpJson_of_jsonShape {v : PyVal} (h : jsonShape v = true) :
    dumpJson v = v :=
  dumpJson_eq_self (sizeOf v) v le_rfl h

/-! ## Tabular data -/

/-- A pandas cell value.  `null` models NaN/NaT/`None`; `num` models numeric
values and numeric strings (which `pd.to_numeric` coerces); `date` models
date-like values (which `pd.to_datetime` coerces), with an abstract integer
time coordinate in days; `str` models non-numeric, non-date text. -/
inductive Cell where
  | null
  | num (q : ℚ)
  | str (s : String)
  | date (d : Int)
  | bool (b : Bool)
  deriving DecidableEq, Repr

/-- `pd.isnull` on a cell. -/
def Cell.isNull : Cell → Bool
  | .null => true
  | _ => false

/-- `pd.to_numeric(·, errors='coerce')` on a cell: numbers pass through,
booleans become 0/1, everything else becomes missing. -/
def Cell.toNumeric : Cell → Option ℚ
  | .num q => some q
  | .bool b => some (if b then 1 else 0)
  | _ => none

/-- `pd.to_datetime(·, errors='coerce')` on a cell: date-like values pass
through, everything else becomes missing. -/
def Cell.toDate : Cell → Option Int
  | .date d => some d
  | _ => none

/-- A pandas `DataFrame`: an optional index name, the index column, the data
column names and the data rows (row-major).  Well-formedness
(`Frame.WF`) requires the index and the rows to agree in length and each row
to match the column list. -/
structure Frame where
  indexName : Option String
  index : List Cell
  cols : List String
  rows : List (List Cell)
  deriving DecidableEq, Repr

/-- Number of rows, `len(df)`. -/
def Frame.nrows (f : Frame) : Nat := f.rows.length

/-- Well-formed frame: index length matches the rows, and every row has one
cell per column. -/
def Frame.WF (f : Frame) : Prop :=
  f.index.length = f.rows.length ∧ ∀ r ∈ f.rows, r.length = f.cols.length

/-- Column extraction `df[c]` (for `c` a present column name; first match for
duplicated names).  Missing positions read as null. -/
def Frame.colVals (f : Frame) (c : String) : List Cell :=
  match f.cols.indexOf? c with
  | some i => f.rows.map fun r => r.getD i .null
  | none => []

/-- The content of the string `df.to_json(orient='split')`: column names,
index values and data rows.  The index *name* is not part of the split
representation. -/
structure Split where
  cols : List String
  index : List Cell
  data : List (List Cell)
  deriving DecidableEq, Repr

/-- `df.to_json(orient='split')`, as structured content. -/
def toSplit (f : Frame) : Split := ⟨f.cols, f.index, f.rows⟩

/-- `pd.read_json(text, orient='split')` applied to a split-orient table
string: reconstructs the frame with an unnamed index. -/
def ofSplit (s : Split) : Frame := ⟨none, s.index, s.cols, s.data⟩

/-- `df.reset_index()`: the index becomes the first data column (named
`index` when the index is unnamed) and is replaced by a default range
index. -/
def Frame.resetIndex (f : Frame) : Frame :=
  { indexName := none
    index := (List.range f.nrows).map fun (i : Nat) => .num (i : ℚ)
    cols := f.indexName.getD "index" :: f.cols
    rows := List.zipWith (· :: ·) f.index f.rows }

/-- `df.set_index(c)` for a present column name `c`: the (first) column named
`c` becomes the index — whether or not its values are unique — and is removed
from the data columns. -/
def Frame.setIndex (f : Frame) (c : String) : Frame :=
  let i := f.cols.indexOf c
  { indexName := some c
    index := f.rows.map fun r => r.getD i .null
    cols := f.cols.eraseIdx i
    rows := f.rows.map fun r => r.eraseIdx i }

/-! ## Timestamps -/

/-- A `pd.Timestamp`, abstracted to an integer instant. -/
abbrev Timestamp := Nat

/-- One decimal digit as a character. -/
def digitToChar (d : Nat) : Char := Char.ofNat (48 + d % 10)

/-- Inverse of `digitToChar` on decimal digit characters. -/
def charToDigit (c : Char) : Option Nat :=
  if 48 ≤ c.toNat ∧ c.toNat ≤ 57 then some (c.toNat - 48) else none

/-- `Timestamp.isoformat`: the canonical sortable text of an instant,
modelled as its decimal rendering (most significant digit first). -/
def tsToString (t : Timestamp) : String :=
  ⟨((Nat.digits 10 t).map digitToChar).reverse⟩

/-- `pd.Timestamp(s)` on a string: parses the decimal rendering back into an
instant and rejects (raises `ValueError`, modelled as `none`) anything
else. -/
def parseTimestamp (s : String) : Option Timestamp :=
  (s.data.reverse.mapM charToDigit).map (Nat.ofDigits 10 ·)

theorem charToDigit_digitToChar {d : Nat} (h : d < 10) :
    charToDigit (digitToChar d) = some d := by
  interval_cases d <;> decide

theorem mapM_charToDigit_map {ds : List Nat} (h : ∀ d ∈ ds, d < 10) :
    (ds.map digitToChar).mapM charToDigit = some ds := by
  induction ds with
  | nil => rfl
  | cons d ds ih =>
      simp only [List.map_cons, List.mapM_cons,
        charToDigit_digitToChar (h d (List.mem_cons_self d ds)),
        ih fun x hx => h x (List.mem_cons_of_mem d hx)]
      rfl

/-- Parsing inverts printing of timestamps. -/
theorem parseTimestamp_tsToString (t : Timestamp) :
    parseTimestamp (tsToString t) = some t := by
  unfold parseTimestamp tsToString
  have hdata :
      (String.mk (((Nat.digits 10 t).map digitToChar).reverse)).data =
        ((Nat.digits 10 t).map digitToChar).reverse := rfl
  rw [hdata, List.reverse_reverse,
    mapM_charToDigit_map fun d hd => Nat.digits_lt_base (by norm_num) hd]
  simp [Nat.ofDigits_digits]

/-! ## Session values and the serialized document -/

/-- A value held in the Streamlit session state, tagged by its runtime shape:
a `DataFrame`, a dict of `DataFrame`s (the roadmap), a dict keyed by
`pd.Timestamp` (the maturity history), a plain JSON-serializable value, a
numpy scalar or array, or any other Python object (`other`), which the
serializer cannot represent. -/
inductive SVal where
  | frame (f : Frame)
  | frameDict (cats : List (String × Frame))
  | history (entries : List (Timestamp × PyVal))
  | py (v : PyVal)
  | npInt (n : Int)
  | npFloat (q : ℚ)
  | npArray (xs : List PyVal)
  | other

/-- A value of the serialized JSON document: either a plain JSON value, or a
string holding a split-orient table (`DataFrame.to_json(orient='split')`),
kept structured as `Split`. -/
inductive SavedVal where
  | py (v : PyVal)
  | frameText (s : Split)

/-- A plain rendering of a split table, standing in for the literal characters
of the serialized string where the loader treats it as opaque text. -/
def splitRepr (s : Split) : String := toString (repr s)

/-- A cell as it appears in `df.to_dict(orient='records')` output, when JSON
can represent it: integral numbers become Python ints, other numbers floats.
Date cells (which would make `json.dump` raise, aborting the save) have no
representation. -/
def cellToPy : Cell → Option PyVal
  | .null => some .null
  | .num q => some (if q.den = 1 then .int q.num else .float q)
  | .str s => some (.str s)
  | .bool b => some (.bool b)
  | .date _ => none

/-- Total version of `cellToPy` used when building record dicts; the claims
only exercise it on representable cells. -/
def cellToPyD (c : Cell) : PyVal := (cellToPy c).getD .null

/-- A record value as `pd.DataFrame(records)` stores it in a cell.  Container
values are kept as opaque objects by pandas; they are outside every claim and
modelled as null. -/
def pyToCell : PyVal → Cell
  | .null => .null
  | .bool b => .bool b
  | .int n => .num n
  | .float q => .num q
  | .str s => .str s
  | .list _ | .tuple _ | .dict _ => .null

/-- `df.to_dict(orient='records')`: one dict per row, keyed by column name. -/
def frameRecords (f : Frame) : List PyVal :=
  f.rows.map fun r => .dict ((f.cols.zip r).map fun cv => (cv.1, cellToPyD cv.2))

/-- First-occurrence deduplication of a key list, as pandas orders the union
of record keys. -/
def firstDedup : List String → List String
  | [] => []
  | k :: ks => k :: firstDedup (ks.filter (· ≠ k))
  termination_by l => l.length
  decreasing_by
    simp only [List.length_cons]
    exact Nat.lt_succ_of_le (List.length_filter_le _ _)

/-- The ordered union of record keys, as pandas determines the columns of
`pd.DataFrame(records)`. -/
def recordKeys (recs : List (List (String × PyVal))) : List String :=
  firstDedup ((recs.map fun r => r.map Prod.fst).flatten)

/-- `pd.DataFrame(records)` for a list of record dicts: columns are the
ordered union of the record keys, the index is a default range, and missing
keys read as null. -/
def frameOfRecords (recs : List (List (String × PyVal))) : Frame :=
  { indexName := none
    index := (List.range recs.length).map fun (i : Nat) => .num (i : ℚ)
    cols := recordKeys recs
    rows := recs.map fun r => (recordKeys recs).map fun c =>
      match r.lookup c with
      | some v => pyToCell v
      | none => .null }

/-- Collects the record dicts of a JSON array; `none` as soon as an element
is not a dict. -/
def extractDicts : List PyVal → Option (List (List (String × PyVal)))
  | [] => some []
  | .dict kvs :: rest => (extractDicts rest).map (kvs :: ·)
  | _ :: _ => none

/-- The shapes accepted by `pd.DataFrame(items)` during the roadmap load:
the list-of-record-dicts shape the save path produces.  Other shapes are
modelled as a construction failure (which the loader's `except` turns into
the default roadmap). -/
def recordsOfPy : PyVal → Option (List (List (String × PyVal)))
  | .list xs => extractDicts xs
  | _ => none

/-- The dict comprehension `{cat: pd.DataFrame(items) for cat, items in
value.items()}` of the roadmap loader; `none` when any category's items
fail to build a frame (the comprehension raises). -/
def loadRoadmapCats : List (String × PyVal) → Option (List (String × Frame))
  | [] => some []
  | (cat, items) :: rest =>
      match recordsOfPy items with
      | some recs => (loadRoadmapCats rest).map ((cat, frameOfRecords recs) :: ·)
      | none => none

/-! ## Built-in defaults -/

/-- `pd.DataFrame(dict_of_columns)`: columns in dict order, rows transposed,
default range index. -/
def frameOfColumnDict (cols : List (String × List Cell)) : Frame :=
  let n := (cols.head?.map fun c => c.2.length).getD 0
  { indexName := none
    index := (List.range n).map fun (i : Nat) => .num (i : ℚ)
    cols := cols.map Prod.fst
    rows := (List.range n).map fun i => cols.map fun c => c.2.getD i .null }

/-- The `default_raci_data` column dict from the source. -/
def default_raci_data : List (String × List Cell) :=
  [ ("Activity",
      [.str "Define Data Quality Rules", .str "Approve Master Data Changes",
       .str "Monitor Data Pipeline Health", .str "Ensure GDPR Compliance",
       .str "Develop Analytics Models", .str "Manage Data Dictionary",
       .str "Set Data Access Policy"]),
    ("CDO",
      [.str "A", .str "A", .str "R", .str "A", .str "S", .str "A", .str "A"]),
    ("Head of Operations",
      [.str "C", .str "R", .str "A", .str "C", .str "I", .str "C", .str "C"]),
    ("Lead Data Architect",
      [.str "S", .str "I", .str "R", .str "I", .str "R", .str "R", .str "S"]),
    ("Data Steward (Sales)",
      [.str "R", .str "C", .str "I", .str "R", .str "C", .str "R", .str "I"]),
    ("IT Security",
      [.str "I", .str "I", .str "C", .str "R", .str "I", .str "I", .str "R"]),
    ("Compliance Officer",
      [.str "C", .str "I", .str "I", .str "A", .str "C", .str "C", .str "A"]),
    ("Data Scientist",
      [.str "I", .str "I", .str "C", .str "I", .str "A", .str "C", .str "I"]) ]

/-- `pd.DataFrame(default_raci_data).set_index('Activity')`: the built-in
default RACI table. -/
def default_raci_frame : Frame :=
  (frameOfColumnDict default_raci_data).setIndex "Activity"

/-- The `default_roadmap_items` record lists from the source. -/
def default_roadmap_items : List (String × List (List (String × PyVal))) :=
  [ ("Quick Wins (0-3 Months)",
      [ [("ID", .str "QW1"), ("Task", .str "Implement Basic Data Quality Dashboard"),
         ("Owner", .str "Data Steward (Sales)"), ("Effort", .str "Medium"),
         ("Cost", .str "$"), ("Status", .str "Not Started"),
         ("Progress (%)", .int 0), ("Dependencies (IDs)", .str "")],
        [("ID", .str "QW2"), ("Task", .str "Document Top 5 Critical Data Elements"),
         ("Owner", .str "Lead Data Architect"), ("Effort", .str "Low"),
         ("Cost", .str "$"), ("Status", .str "Not Started"),
         ("Progress (%)", .int 0), ("Dependencies (IDs)", .str "")],
        [("ID", .str "QW3"), ("Task", .str "Conduct Data Literacy Survey"),
         ("Owner", .str "CDO"), ("Effort", .str "Low"),
         ("Cost", .str "$"), ("Status", .str "Not Started"),
         ("Progress (%)", .int 0), ("Dependencies (IDs)", .str "")] ]),
    ("Mid-Term (3-12 Months)",
      [ [("ID", .str "MT1"), ("Task", .str "Establish Data Governance Council"),
         ("Owner", .str "CDO"), ("Effort", .str "High"),
         ("Cost", .str "$$"), ("Status", .str "Not Started"),
         ("Progress (%)", .int 0), ("Dependencies (IDs)", .str "QW3")],
        [("ID", .str "MT2"),
         ("Task", .str "Implement Master Data Management (MDM) for Customer Domain"),
         ("Owner", .str "Lead Data Architect"), ("Effort", .str "High"),
         ("Cost", .str "$$$"), ("Status", .str "Not Started"),
         ("Progress (%)", .int 0), ("Dependencies (IDs)", .str "QW2,MT1")],
        [("ID", .str "MT3"), ("Task", .str "Roll out Self-Service BI Tool Training"),
         ("Owner", .str "Head of Operations"), ("Effort", .str "Medium"),
         ("Cost", .str "$$"), ("Status", .str "Not Started"),
         ("Progress (%)", .int 0), ("Dependencies (IDs)", .str "MT1")] ]),
    ("Long-Term (12+ Months)",
      [ [("ID", .str "LT1"), ("Task", .str "Migrate to Cloud Data Warehouse"),
         ("Owner", .str "Lead Data Architect"), ("Effort", .str "Very High"),
         ("Cost", .str "$$$$$"), ("Status", .str "Not Started"),
         ("Progress (%)", .int 0), ("Dependencies (IDs)", .str "MT2")],
        [("ID", .str "LT2"), ("Task", .str "Develop Predictive Maintenance Model"),
         ("Owner", .str "Data Scientist"), ("Effort", .str "High"),
         ("Cost", .str "$$$"), ("Status", .str "Not Started"),
         ("Progress (%)", .int 0), ("Dependencies (IDs)", .str "LT1")],
        [("ID", .str "LT3"), ("Task", .str "Integrate AI for Customer Personalization"),
         ("Owner", .str "Marketing Manager"), ("Effort", .str "High"),
         ("Cost", .str "$$$$"), ("Status", .str "Not Started"),
         ("Progress (%)", .int 0), ("Dependencies (IDs)", .str "MT2,LT1")] ]) ]

/-- `{category: pd.DataFrame(items) for category, items in default_roadmap_items.items()}`. -/
def default_roadmap_frames : List (String × Frame) :=
  default_roadmap_items.map fun ci => (ci.1, frameOfRecords ci.2)

/-! ## The serializer (`save_app_state_json` / `load_app_state_json`) -/

/-- The `keys_to_persist` list of `save_app_state_json`. -/
def keys_to_persist : List String :=
  [ "project_metadata", "selected_sector", "uploaded_logo_bytes",
    "editable_exec_summary", "show_summary_edit",
    "interview_confidence", "interview_notes", "interview_questions",
    "uploaded_interview_files",
    "dq_rules_config",
    "governance_scores", "raci_df_json", "selected_compliance", "business_glossary",
    "maturity_scores", "maturity_evidence", "maturity_assessments_history",
    "roadmap_data",
    "export_options" ]

/-- How `save_app_state_json` serializes one session value under one key
(`none`: the key is omitted from the document).  `DataFrame`s become split
tables (the RACI one after `reset_index`); under `roadmap_data` a dict keeps
only its `DataFrame` values, as record lists; under
`maturity_assessments_history` dict keys become isoformat text; plain
JSON-serializable values pass through `json.dump` (`dumpJson`); numpy scalars
and arrays are coerced; anything else is omitted.  Key/value mismatches that
would make `json.dump` raise (aborting the file write, so that nothing is
saved) are likewise modelled as omissions; they are outside every claim. -/
def saveVal (key : String) (v : SVal) : Option SavedVal :=
  match v with
  | .frame f =>
      some (.frameText (toSplit (if key = "raci_df_json" then f.resetIndex else f)))
  | .frameDict cats =>
      if key = "roadmap_data" then
        some (.py (.dict (cats.map fun cf => (cf.1, .list (frameRecords cf.2)))))
      else none
  | .history entries =>
      if key = "roadmap_data" then some (.py (.dict []))
      else if key = "maturity_assessments_history" then
        some (.py (.dict (entries.map fun te => (tsToString te.1, dumpJson te.2))))
      else none
  | .py pv =>
      if key = "roadmap_data" then
        match pv with
        | .dict _ => some (.py (.dict []))
        | _ => some (.py (dumpJson pv))
      else if key = "maturity_assessments_history" then
        match pv with
        | .dict kvs => some (.py (.dict (dumpJsonDict kvs)))
        | _ => some (.py (dumpJson pv))
      else some (.py (dumpJson pv))
  | .npInt n => some (.py (.int n))
  | .npFloat q => some (.py (.float q))
  | .npArray xs => some (.py (.list (dumpJsonList xs)))
  | .other => none

/-- `save_app_state_json`: the serialized document, keyed in `keys_to_persist`
order, containing every persisted key present in the session whose value the
serializer represents. -/
def save_app_state_json (state : List (String × SVal)) : List (String × SavedVal) :=
  keys_to_persist.filterMap fun k =>
    ((state.lookup k).bind (saveVal k)).map fun sv => (k, sv)

/-- `key.endswith('_df_json')`, the general convention the loader applies to
table keys, expressed as a character-level suffix test. -/
def endsWithDfJson (key : String) : Bool :=
  (key.data.reverse.take 8).reverse == "_df_json".data

/-- How `load_app_state_json` deserializes one document entry: the loaded
session value (`none` when the key is skipped) and whether a warning was
surfaced.  The RACI table is reconstructed and re-indexed by its `Activity`
column when that column exists — falling back to the built-in default with a
warning when it does not or when the text does not parse; the roadmap is
reconstructed as one frame per category (default and warning on failure);
history keys are parsed back into timestamps, unparseable ones dropped with a
warning; other `_df_json` keys are reconstructed as frames (skipped with a
warning when unparseable); everything else is assigned verbatim. -/
def loadVal (key : String) (v : SavedVal) : Option SVal × Bool :=
  if key = "raci_df_json" then
    match v with
    | .frameText s =>
        let df := ofSplit s
        if "Activity" ∈ df.cols then (some (.frame (df.setIndex "Activity")), false)
        else (some (.frame default_raci_frame), true)
    | .py (.str _) => (some (.frame default_raci_frame), true)
    | .py pv => (some (.py pv), false)
  else if key = "roadmap_data" then
    match v with
    | .py (.dict kvs) =>
        match loadRoadmapCats kvs with
        | some cats => (some (.frameDict cats), false)
        | none => (some (.frameDict default_roadmap_frames), true)
    | .py pv => (some (.py pv), false)
    | .frameText s => (some (.py (.str (splitRepr s))), false)
  else if key = "maturity_assessments_history" then
    match v with
    | .py (.dict kvs) =>
        (some (.history (kvs.filterMap fun kv =>
            (parseTimestamp kv.1).map fun t => (t, kv.2))),
         kvs.any fun kv => (parseTimestamp kv.1).isNone)
    | .py pv => (some (.py pv), false)
    | .frameText s => (some (.py (.str (splitRepr s))), false)
  else if endsWithDfJson key then
    match v with
    | .frameText s => (some (.frame (ofSplit s)), false)
    | .py (.str _) => (none, true)
    | .py pv => (some (.py pv), false)
  else
    match v with
    | .py pv => (some (.py pv), false)
    | .frameText s => (some (.py (.str (splitRepr s))), false)

/-- The assignment a successful `load_app_state_json` makes into the session:
each loaded key mapped through `loadVal`, skipped keys absent. -/
def loadAssignment (doc : List (String × SavedVal)) : List (String × SVal) :=
  doc.filterMap fun kv => ((loadVal kv.1 kv.2).1).map fun v => (kv.1, v)

/-- The `default_interview_questions` dict from the source. -/
def default_interview_questions : PyVal :=
  .dict
    [ ("Chief Data Officer (CDO)", .list
        [ .str "What are the top 3 strategic goals data should support?",
          .str "How is data literacy perceived?",
          .str "Biggest roadblocks to being data-driven?",
          .str "How is data value measured?",
          .str "Current state of data governance maturity?",
          .str "Using data for competitive advantage?",
          .str "Needed investments in platforms/tools?",
          .str "Impact of privacy/security concerns?",
          .str "Role of AI/ML in future strategy?",
          .str "Satisfaction with reporting capabilities?" ]),
      ("Head of Operations", .list
        [ .str "Reliability of operational reporting data?",
          .str "Biggest data quality issues impacting ops?",
          .str "Are dashboards timely and actionable?",
          .str "Manual effort in data collection/prep?",
          .str "Do front-line staff have needed data?",
          .str "Impact of data inconsistencies?",
          .str "Processes most improved with better data?",
          .str "Sufficient training on data tools?",
          .str "How is data used for operational KPIs?",
          .str "Challenges accessing cross-departmental data?" ]),
      ("Lead Data Architect", .list
        [ .str "Current state of data architecture (scalability, flexibility)?",
          .str "Main data integration challenges?",
          .str "Documentation state of sources/pipelines?",
          .str "Is data storage optimized (cost/performance)?",
          .str "Process for introducing new data tech?",
          .str "Robustness of data security framework?",
          .str "Effectiveness of MDM/reference data management?",
          .str "Technical limitations hindering advanced analytics?",
          .str "How is data lineage tracked?",
          .str "Improvements needed in data modeling?" ]),
      ("Marketing Manager", .list
        [ .str "Effectiveness of customer segmentation?",
          .str "Accuracy/timeliness of campaign tracking?",
          .str "Challenges accessing customer journey data?",
          .str "Confidence in personalization data?",
          .str "Ability to calculate marketing ROI accurately?",
          .str "Missing data sources for complete customer view?",
          .str "Ease of A/B testing and analysis?",
          .str "Right tools for marketing analytics?",
          .str "How does data inform content strategy?",
          .str "Data privacy constraints limiting activities?" ]),
      ("Data Scientist", .list
        [ .str "Accessibility of data for model building?",
          .str "Quality of data available for analysis?",
          .str "Availability of tools/platforms for ML?",
          .str "Collaboration process with domain experts?",
          .str "Process for deploying models into production?",
          .str "Monitoring model performance and drift?",
          .str "Challenges in feature engineering?",
          .str "Ethical considerations in model development?",
          .str "Availability of compute resources?",
          .str "Integration of external datasets?" ]),
      ("Compliance Officer", .list
        [ .str "Effectiveness of current data privacy controls?",
          .str "Process for handling data subject requests (DSRs)?",
          .str "Data retention policy adherence?",
          .str "Audit trails for sensitive data access?",
          .str "Training level on data compliance requirements?",
          .str "Challenges in monitoring regulatory changes?",
          .str "Data classification accuracy?",
          .str "Incident response plan for data breaches?",
          .str "Third-party data sharing risk management?",
          .str "Alignment with specific regulations (GDPR, CCPA etc.)?" ]) ]

/-- The mock maturity dimensions from the source. -/
def mock_maturity_dimensions : List String :=
  [ "Strategy & Vision", "Data Governance", "Data Quality",
    "Technology & Architecture", "People & Skills", "Data Usage & Analytics",
    "Innovation & Value" ]

/-- The default `dq_rules_config` dict from `init_session_state`.  Note the
`consistency_range` is a Python *tuple*. -/
def default_dq_rules : List (String × PyVal) :=
  [ ("completeness_cols", .list
      [.str "CustomerID", .str "TransactionAmount", .str "SatisfactionScore"]),
    ("uniqueness_col", .str "CustomerID"),
    ("timeliness_col", .str "PurchaseDate"),
    ("timeliness_days", .int 90),
    ("validity_col", .str "TransactionAmount"),
    ("validity_condition", .str ">= 0"),
    ("consistency_col", .str "SatisfactionScore"),
    ("consistency_range", .tuple [.int 1, .int 5]) ]

/-- The defaults of `init_session_state`, restricted to the keys of
`keys_to_persist` (the session-state universe this model manipulates; the
remaining default keys never meet the serializer).  The two generation
strings of `project_metadata` come from the ambient clock and are passed in
as parameters. -/
def init_session_state (genDate genTime : String) : List (String × SVal) :=
  [ ("project_metadata", .py (.dict
      [ ("Project Name", .str "Enterprise Data Strategy Initiative"),
        ("Project Lead", .str "TBD"),
        ("Client Name", .str "Internal"),
        ("Generated Date", .str genDate),
        ("Generated Time", .str genTime),
        ("Generated From", .str "London, England, UK") ])),
    ("selected_sector", .py (.str "Mobility")),
    ("uploaded_logo_bytes", .py .null),
    ("editable_exec_summary", .py (.str "")),
    ("show_summary_edit", .py (.bool false)),
    ("interview_confidence", .py (.dict [])),
    ("interview_notes", .py (.dict [])),
    ("interview_questions", .py default_interview_questions),
    ("uploaded_interview_files", .py (.dict [])),
    ("dq_rules_config", .py (.dict default_dq_rules)),
    ("governance_scores", .py (.dict
      [ ("Policy & Standards", .int 50), ("Data Stewardship", .int 40),
        ("Data Quality Framework", .int 60), ("Metadata Management", .int 30),
        ("Security & Privacy", .int 70), ("Compliance Adherence", .int 65) ])),
    ("raci_df_json", .frame default_raci_frame),
    ("selected_compliance", .py (.list [.str "GDPR", .str "CCPA"])),
    ("business_glossary", .py (.dict
      [ ("Data Maturity",
          .str "The extent to which an organization utilizes its data resources..."),
        ("Data Governance",
          .str "The exercise of authority and control over data assets..."),
        ("MDM", .str "Master Data Management disciplines...") ])),
    ("maturity_scores", .py (.dict
      (mock_maturity_dimensions.map fun dim => (dim, .int 2)))),
    ("maturity_evidence", .py (.dict
      (mock_maturity_dimensions.map fun dim => (dim, .str "")))),
    ("maturity_assessments_history", .history []),
    ("roadmap_data", .frameDict default_roadmap_frames),
    ("export_options", .py (.dict
      [ ("include_branding", .bool false), ("include_glossary", .bool true),
        ("include_raw_data", .bool false),
        ("selected_sections", .list
          [ .str "🏠 Landing Page", .str "📄 Executive Summary",
            .str "🎙️ Stakeholder Interviews", .str "🔍 Data Upload & Analysis",
            .str "🏛️ Data Governance", .str "📈 Maturity Assessment",
            .str "🗺️ Roadmap Builder", .str "📤 Export" ]) ])) ]

/-- The condition of the snapshot resource that `load_app_state_json` finds:
the file is missing, its content fails to parse as JSON, or it parses into a
document. -/
inductive LoadInput where
  | missing
  | parseFail
  | parsed (doc : List (String × SavedVal))

/-- `load_app_state_json`: on a missing file or a wholesale parse failure the
session state is reset to built-in defaults (`init_session_state` with
`force_defaults=True`) and `False` is returned; otherwise each loaded key is
assigned over the prior session state and `True` is returned. -/
def load_app_state_json (prior : List (String × SVal)) (genDate genTime : String) :
    LoadInput → List (String × SVal) × Bool
  | .missing => (init_session_state genDate genTime, false)
  | .parseFail => (init_session_state genDate genTime, false)
  | .parsed doc => (loadAssignment doc ++ prior.filter
      (fun kv => ((loadAssignment doc).lookup kv.1).isNone), true)

/-! ## The data-quality scorer (`run_mock_dama_checks` / `simulate_sql_analysis`) -/

/-- Python `round(q, 1)`, on exact rationals: round half up to one decimal
place.  (CPython rounds floats half-to-even; the two differ only at exact
ties in the second decimal, which no claim exercises.) -/
def round1 (q : ℚ) : ℚ := ((10 * q + 1/2).floor : ℚ) / 10

/-- The scorer's `calculate_percentage` helper: 100 when the denominator is
zero, otherwise `round(numerator/denominator*100, 1)`. -/
def calculate_percentage (numerator denominator : Nat) : ℚ :=
  if denominator = 0 then 100
  else round1 ((numerator : ℚ) / (denominator : ℚ) * 100)

/-- The scorer's rule configuration: the `config` dict. -/
abbrev Config := List (String × PyVal)

/-- `config.get(k, d)`. -/
def cfgGet (config : Config) (k : String) (d : PyVal) : PyVal :=
  (config.lookup k).getD d

/-- Python truthiness of a config value. -/
def truthy : PyVal → Bool
  | .null => false
  | .bool b => b
  | .int n => n != 0
  | .float q => q != 0
  | .str s => s != ""
  | .list xs | .tuple xs => !xs.isEmpty
  | .dict kvs => !kvs.isEmpty

/-- Whether a config value can be hashed (tested with `in df.columns`
without raising).  Lists and dicts are unhashable; tuples are treated as
hashable (tuples of unhashable elements do not arise in any claim). -/
def hashable : PyVal → Bool
  | .list _ | .dict _ => false
  | _ => true

/-- The column guard `col and col in df.columns` shared by the uniqueness,
timeliness and validity dimensions: `none` selects the "N/A" branch, `some c`
the computation on column `c`; an unhashable truthy value raises a
`TypeError` outside any `try`. -/
def colCheck (x : PyVal) (cols : List String) : Except String (Option String) :=
  match x with
  | .str s => if s = "" then .ok none else .ok (if s ∈ cols then some s else none)
  | .list xs => if xs.isEmpty then .ok none else .error "TypeError: unhashable type"
  | .dict kvs => if kvs.isEmpty then .ok none else .error "TypeError: unhashable type"
  | _ => .ok none

/-- The comprehension `[col for col in completeness_cols if col in df.columns]`:
iterating a list/tuple keeps its string elements that name present columns
(raising on unhashable elements), iterating a string yields its characters,
iterating a dict yields its keys; iterating anything else raises a
`TypeError` outside any `try`. -/
def iterCols (x : PyVal) (cols : List String) : Except String (List String) :=
  match x with
  | .list xs | .tuple xs =>
      if xs.all hashable then
        .ok (xs.filterMap fun v =>
          match v with
          | .str s => if s ∈ cols then some s else none
          | _ => none)
      else .error "TypeError: unhashable type in column list"
  | .str s => .ok ((s.data.map fun c => String.mk [c]).filter (· ∈ cols))
  | .dict kvs => .ok ((kvs.map Prod.fst).filter (· ∈ cols))
  | _ => .error "TypeError: object is not iterable"

/-- Numeric reading of a config value where the code does arithmetic or
comparisons with it (`pd.Timedelta(days=·)`, `scores >= ·`): ints, floats and
booleans work, anything else raises inside the enclosing `try`. -/
def asNum : PyVal → Option ℚ
  | .int n => some (n : ℚ)
  | .float q => some q
  | .bool b => some (if b then 1 else 0)
  | _ => none

/-- One dimension's entry in the `results` dict: a numeric score, the
"not applicable" string sentinel, or the "error" string sentinel produced by
a dimension's `except` handler. -/
inductive DimResult where
  | score (q : ℚ)
  | na (msg : String)
  | err (msg : String)
  deriving DecidableEq, Repr

/-- The five dimension entries of the `results` dict. -/
structure DamaResults where
  completeness : DimResult
  uniqueness : DimResult
  timeliness : DimResult
  validity : DimResult
  consistency : DimResult
  deriving DecidableEq, Repr

/-- The completeness block: among the configured columns present in the
dataset, the percentage of non-missing cells over all cells of those columns;
"N/A" when no configured column is present. -/
def completeness_check (df : Frame) (config : Config) : Except String DimResult := do
  let present_cols ← iterCols (cfgGet config "completeness_cols" (.list [])) df.cols
  if present_cols.isEmpty then
    return .na "N/A (Cols missing)"
  else
    let total_cells := present_cols.length * df.nrows
    let nan_cells := (present_cols.map fun c => (df.colVals c).countP Cell.isNull).sum
    return .score (calculate_percentage (total_cells - nan_cells) total_cells)

/-- The uniqueness block: distinct non-missing values over non-missing count
(100 when there are none); "N/A" when the configured column is absent. -/
def uniqueness_check (df : Frame) (config : Config) : Except String DimResult := do
  let c? ← colCheck (cfgGet config "uniqueness_col" .null) df.cols
  match c? with
  | none => return .na "N/A (Col missing)"
  | some c =>
      let non_na_rows := (df.colVals c).filter fun x => !x.isNull
      let num_non_na := non_na_rows.length
      let unique_ids := non_na_rows.dedup.length
      return .score
        (if num_non_na > 0 then calculate_percentage unique_ids num_non_na else 100)

/-- The timeliness block: records dated strictly after `now` minus the
configured window, over all rows; "N/A" when the column is absent or no entry
parses as a date; an "error" sentinel when `pd.Timedelta` rejects the
configured day count (caught by this block's `except`). -/
def timeliness_check (now : Int) (df : Frame) (config : Config) :
    Except String DimResult := do
  let days_limit := cfgGet config "timeliness_days" (.int 90)
  let c? ← colCheck (cfgGet config "timeliness_col" .null) df.cols
  match c? with
  | none => return .na "N/A (Col missing or invalid limit)"
  | some c =>
      let valid_dates := (df.colVals c).filterMap Cell.toDate
      if valid_dates.isEmpty then
        return .na "N/A (No valid dates)"
      else
        match asNum days_limit with
        | none => return .err "Error (invalid Timedelta days)"
        | some d =>
            let timely_records := valid_dates.countP fun (t : Int) =>
              decide ((now : ℚ) - d < (t : ℚ))
            return .score (calculate_percentage timely_records df.nrows)

/-- The validity block: numeric-coercible entries passing the configured
condition (only `>= 0` is implemented; any other condition passes every
coercible entry), over all rows; "N/A" when the column is absent. -/
def validity_check (df : Frame) (config : Config) : Except String DimResult := do
  let c? ← colCheck (cfgGet config "validity_col" .null) df.cols
  match c? with
  | none => return .na "N/A (Col missing)"
  | some c =>
      let numeric_vals := (df.colVals c).filterMap Cell.toNumeric
      let valid_vals :=
        match cfgGet config "validity_condition" .null with
        | .str s => if s = ">= 0" then numeric_vals.countP fun q => decide (0 ≤ q)
                    else numeric_vals.length
        | _ => numeric_vals.length
      return .score (calculate_percentage valid_vals df.nrows)

/-- The consistency block: entries that are missing (or non-coercible, hence
NaN) or fall inside the configured inclusive range, over all rows.  The
guard requires the configured range to be a tuple of length exactly 2;
otherwise the result is "N/A" even when the column is present.  Non-numeric
range endpoints make the series comparison raise inside this block's `try`,
yielding the "error" sentinel. -/
def consistency_check (df : Frame) (config : Config) : Except String DimResult := do
  let c? ← colCheck (cfgGet config "consistency_col" .null) df.cols
  match c?, cfgGet config "consistency_range" (.tuple [.int 1, .int 5]) with
  | some s, .tuple [lo, hi] =>
      match asNum lo, asNum hi with
      | some mn, some mx =>
          let scores := (df.colVals s).map Cell.toNumeric
          let consistent_scores := scores.countP fun q? =>
            match q? with
            | none => true
            | some q => decide (mn ≤ q ∧ q ≤ mx)
          return .score (calculate_percentage consistent_scores df.nrows)
      | _, _ => return .err "Error (range comparison failed)"
  | _, _ => return .na "N/A (Col/Range missing)"

/-- `run_mock_dama_checks`, for a dataset that passed the caller's emptiness
guard: the five dimension blocks run in source order; an exception escaping a
block's `try` region (`Except.error`) aborts the whole function.  (The
`issues_summary` return value carries no score information and is not
modelled.) -/
def run_mock_dama_checks (now : Int) (df : Frame) (config : Config) :
    Except String DamaResults := do
  let c ← completeness_check df config
  let u ← uniqueness_check df config
  let t ← timeliness_check now df config
  let v ← validity_check df config
  let s ← consistency_check df config
  return ⟨c, u, t, v, s⟩

/-- The numeric reading of a results entry: `isinstance(v, (int, float))`. -/
def numericScore : DimResult → Option ℚ
  | .score q => some q
  | _ => none

/-- The `results.values()` list, in insertion order. -/
def dimList (r : DamaResults) : List DimResult :=
  [r.completeness, r.uniqueness, r.timeliness, r.validity, r.consistency]

/-- `valid_scores`: the numeric dimension results. -/
def valid_scores (r : DamaResults) : List ℚ :=
  (dimList r).filterMap numericScore

/-- The aggregate trust score:
`round(sum(valid_scores)/len(valid_scores), 1) if valid_scores else 0`. -/
def trust_score (r : DamaResults) : ℚ :=
  if valid_scores r = [] then 0
  else round1 ((valid_scores r).sum / ((valid_scores r).length : ℚ))

/-- `simulate_sql_analysis`, reduced to its score outputs: trust 0 and no
dimension results for an empty dataset, otherwise the checks' results and
their aggregate trust score.  An exception escaping `run_mock_dama_checks`
propagates. -/
def simulate_sql_analysis (now : Int) (df : Frame) (config : Config) :
    Except String (ℚ × Option DamaResults) :=
  if df.rows.isEmpty || df.cols.isEmpty then .ok (0, none)
  else (run_mock_dama_checks now df config).map fun r => (trust_score r, some r)

/-! ## Representability and claim-side notions -/

/-- Whether `json.dump` can write a cell (dates would make it raise, aborting
the whole save). -/
def cellJsonSafe : Cell → Bool
  | .date _ => false
  | _ => true

/-- A roadmap category frame in the serializer's representable region: well
formed, unnamed default range index, distinct column names, at least one row
(an empty record list loses the columns), and JSON-writable cells. -/
def RoadFrameRep (f : Frame) : Prop :=
  f.WF ∧ f.indexName = none ∧
  f.index = (List.range f.nrows).map (fun (i : Nat) => .num (i : ℚ)) ∧
  f.cols.Nodup ∧ f.rows ≠ [] ∧
  ∀ r ∈ f.rows, ∀ c ∈ r, (cellToPy c).isSome = true

/-- The representable session values for a persisted key, per §4.2 of the
spec: the RACI key holds a well-formed table indexed by its `Activity`
identifier (not also a data column, which would make `reset_index` raise) with
JSON-writable cells; the roadmap key a dict of representable category frames;
the history key timestamp-keyed JSON-representable score mappings; every
other persisted key a tuple-free JSON-representable value or a numpy
scalar/array thereof. -/
def Representable (key : String) (v : SVal) : Prop :=
  key ∈ keys_to_persist ∧
  if key = "raci_df_json" then
    match v with
    | .frame f => f.WF ∧ f.indexName = some "Activity" ∧ "Activity" ∉ f.cols ∧
        f.index.all cellJsonSafe = true ∧ (f.rows.all fun r => r.all cellJsonSafe) = true
    | _ => False
  else if key = "roadmap_data" then
    match v with
    | .frameDict cats => ∀ cf ∈ cats, RoadFrameRep cf.2
    | _ => False
  else if key = "maturity_assessments_history" then
    match v with
    | .history entries => ∀ te ∈ entries, jsonShape te.2 = true
    | _ => False
  else
    match v with
    | .py pv => jsonShape pv = true
    | .npInt _ => True
    | .npFloat _ => True
    | .npArray xs => jsonShapeList xs = true
    | _ => False

/-- The equivalence the round trip guarantees: numpy scalars and arrays come
back as the native values they were coerced to; every other representable
value comes back unchanged. -/
def normalizeSVal : SVal → SVal
  | .npInt n => .py (.int n)
  | .npFloat q => .py (.float q)
  | .npArray xs => .py (.list xs)
  | v => v

/-- A dimension entry as the spec describes it: a number within [0, 100] or
one of the two sentinels. -/
def dimOk : DimResult → Prop
  | .score q => 0 ≤ q ∧ q ≤ 100
  | .na _ => True
  | .err _ => True

/-- A config value that is *not* a 2-tuple (the shapes the consistency guard
rejects). -/
def notTuple2 : PyVal → Prop
  | .tuple xs => xs.length ≠ 2
  | _ => True

/-- Claim-side validity count: entries of the column that coerce to a number
and pass `>= 0`. -/
def validPassCount (df : Frame) (c : String) : Nat :=
  (df.colVals c).countP fun x =>
    match x.toNumeric with
    | some q => decide (0 ≤ q)
    | none => false

/-! ## Concrete fixtures used by witnesses and counterexamples -/

/-- A one-row, one-column dataset. -/
def wdf1 : Frame := ⟨none, [.num 0], ["A"], [[.num 1]]⟩

/-- The 100-row transaction dataset of the spec's validity example: 95
non-negative and 5 negative numeric values. -/
def wdfValidity : Frame :=
  ⟨none, (List.range 100).map fun (i : Nat) => .num (i : ℚ), ["TransactionAmount"],
    List.replicate 95 [.num 1] ++ List.replicate 5 [.num (-2)]⟩

/-- Config for the validity example. -/
def wcfgValidity : Config :=
  [("validity_col", .str "TransactionAmount"), ("validity_condition", .str ">= 0")]

/-- A two-row dataset with one fresh and one stale date. -/
def wdfDates : Frame := ⟨none, [.num 0, .num 1], ["PurchaseDate"], [[.date 100], [.date 0]]⟩

/-- Config for the timeliness witness. -/
def wcfgDates : Config :=
  [("timeliness_col", .str "PurchaseDate"), ("timeliness_days", .int 30)]

/-- A two-row dataset whose identifier column is entirely missing. -/
def wdfAllNull : Frame := ⟨none, [.num 0, .num 1], ["CustomerID"], [[.null], [.null]]⟩

/-- Config for the uniqueness witness. -/
def wcfgUnique : Config := [("uniqueness_col", .str "CustomerID")]

/-- A config whose completeness column list is an `int`: iterating it raises
`TypeError` before the completeness `try` block. -/
def wcfgBadIter : Config := [("completeness_cols", .int 5)]

/-- A one-row dataset with a date column, and a config whose timeliness day
count is a string: `pd.Timedelta(days='ninety')` raises *inside* the
timeliness `try` block. -/
def wdfTimelyErr : Frame := ⟨none, [.num 0], ["LastSeen"], [[.date 5]]⟩

/-- Config for the caught in-`try` timeliness failure. -/
def wcfgTimelyErr : Config :=
  [("timeliness_col", .str "LastSeen"), ("timeliness_days", .str "ninety")]

/-- A one-row dataset containing the default consistency column. -/
def wdfSat : Frame := ⟨none, [.num 0], ["SatisfactionScore"], [[.num 3]]⟩

/-- A split table whose `Activity` column exists but holds duplicate values:
the loader happily indexes by it. -/
def raciDupSplit : Split :=
  ⟨["Activity", "CDO"], [.num 0, .num 1], [[.str "A", .str "R"], [.str "A", .str "C"]]⟩

/-- The frame the loader builds from `raciDupSplit`: indexed by the
non-unique `Activity` column. -/
def raciDupFrame : Frame :=
  ⟨some "Activity", [.str "A", .str "A"], ["CDO"], [[.str "R"], [.str "C"]]⟩

/-- A split table with no `Activity` column at all. -/
def noActSplit : Split := ⟨["Act", "CDO"], [.num 0], [[.str "x", .str "y"]]⟩

/-- The all-"N/A" result row an empty config produces. -/
def damaAllNA : DamaResults :=
  ⟨.na "N/A (Cols missing)", .na "N/A (Col missing)",
   .na "N/A (Col missing or invalid limit)", .na "N/A (Col missing)",
   .na "N/A (Col/Range missing)"⟩

/-- The result row for `wdfTimelyErr`/`wcfgTimelyErr`: only the timeliness
dimension fails, inside its `try`. -/
def damaTimelyErr : DamaResults :=
  ⟨.na "N/A (Cols missing)", .na "N/A (Col missing)",
   .err "Error (invalid Timedelta days)", .na "N/A (Col missing)",
   .na "N/A (Col/Range missing)"⟩

/-! ## Support lemmas for the scorer -/

theorem rat_floor_eq_int_floor (q : ℚ) : (Rat.floor q : ℤ) = ⌊q⌋ := by
  rw [Rat.floor_def', Rat.floor_def]

theorem round1_eq (q : ℚ) : round1 q = ((⌊10 * q + 1/2⌋ : ℤ) : ℚ) / 10 := by
  rw [round1, rat_floor_eq_int_floor]

theorem round1_nonneg {q : ℚ} (h0 : 0 ≤ q) : 0 ≤ round1 q := by
  rw [round1_eq]
  have h : (0:ℤ) ≤ ⌊10 * q + 1/2⌋ := Int.le_floor.2 (by push_cast; linarith)
  have h2 : (0:ℚ) ≤ ((⌊10 * q + 1/2⌋ : ℤ) : ℚ) := by exact_mod_cast h
  linarith

theorem round1_le_100 {q : ℚ} (h1 : q ≤ 100) : round1 q ≤ 100 := by
  rw [round1_eq]
  have hf : ⌊10 * q + 1/2⌋ ≤ ⌊(1000:ℚ) + 1/2⌋ := Int.floor_le_floor (by linarith)
  have h2 : ⌊(1000:ℚ) + 1/2⌋ = (1000:ℤ) := Int.floor_eq_iff.2 (by norm_num)
  have h3 : ((⌊10 * q + 1/2⌋ : ℤ) : ℚ) ≤ 1000 := by exact_mod_cast h2 ▸ hf
  linarith

theorem calculate_percentage_bounds {n d : Nat} (h : n ≤ d) :
    0 ≤ calculate_percentage n d ∧ calculate_percentage n d ≤ 100 := by
  unfold calculate_percentage
  by_cases hd : d = 0
  · simp [hd]
  · simp only [hd, if_false]
    have hd0 : (0:ℚ) < (d:ℚ) := by
      have : 0 < d := Nat.pos_of_ne_zero hd
      exact_mod_cast this
    have hratio : (n:ℚ) / (d:ℚ) ≤ 1 := by
      rw [div_le_one hd0]
      exact_mod_cast h
    have hratio0 : 0 ≤ (n:ℚ) / (d:ℚ) := by positivity
    exact ⟨round1_nonneg (by linarith), round1_le_100 (by linarith)⟩

theorem length_colVals {df : Frame} {c : String} (h : c ∈ df.cols) :
    (df.colVals c).length = df.nrows := by
  unfold Frame.colVals
  cases hio : df.cols.indexOf? c with
  | none => exact absurd ((List.indexOf?_eq_none_iff).1 hio) (by simp [h])
  | some i => simp [Frame.nrows]

theorem mem_cols_of_filterMap_strCol {xs : List PyVal} {cols : List String}
    {c : String}
    (hc : c ∈ xs.filterMap fun v =>
      match v with
      | PyVal.str s => if s ∈ cols then some s else none
      | _ => none) : c ∈ cols := by
  simp only [List.mem_filterMap] at hc
  obtain ⟨v, _, hv⟩ := hc
  cases v <;> simp_all
  exact hv.2 ▸ hv.1

theorem iterCols_mem {x : PyVal} {cols : List String} {l : List String}
    (h : iterCols x cols = .ok l) : ∀ c ∈ l, c ∈ cols := by
  unfold iterCols at h
  cases x with
  | list xs | tuple xs =>
      by_cases hall : xs.all hashable = true
      · simp only [hall, if_true, Except.ok.injEq] at h
        subst h
        exact fun c hc => mem_cols_of_filterMap_strCol hc
      · simp [hall] at h
  | str s =>
      simp only [Except.ok.injEq] at h
      subst h
      intro c hc
      exact of_decide_eq_true (List.mem_filter.1 hc).2
  | dict kvs =>
      simp only [Except.ok.injEq] at h
      subst h
      intro c hc
      exact of_decide_eq_true (List.mem_filter.1 hc).2
  | null | bool _ | int _ | float _ => simp at h

theorem colCheck_some {x : PyVal} {cols : List String} {c : String}
    (h : colCheck x cols = .ok (some c)) : c ∈ cols := by
  cases x with
  | str s =>
      simp only [colCheck] at h
      split_ifs at h with h0 hmem
      · simp at h
      · simp only [Except.ok.injEq, Option.some.injEq] at h
        subst h
        exact hmem
      · simp at h
  | list xs =>
      simp only [colCheck] at h
      split_ifs at h <;> simp_all
  | dict kvs =>
      simp only [colCheck] at h
      split_ifs at h <;> simp_all
  | null | bool _ | int _ | float _ | tuple _ => simp [colCheck] at h

theorem completeness_check_dimOk {df : Frame} {config : Config} {d : DimResult}
    (h : completeness_check df config = .ok d) : dimOk d := by
  unfold completeness_check at h
  cases hit : iterCols (cfgGet config "completeness_cols" (.list [])) df.cols with
  | error e => rw [hit] at h; simp [Bind.bind, Except.bind] at h
  | ok present =>
      rw [hit] at h
      simp only [Bind.bind, Except.bind, pure, Except.pure] at h
      split at h
      · simp only [Except.ok.injEq] at h; subst h; trivial
      · simp only [Except.ok.injEq] at h
        subst h
        exact calculate_percentage_bounds (Nat.sub_le _ _)

theorem uniqueness_check_dimOk {df : Frame} {config : Config} {d : DimResult}
    (h : uniqueness_check df config = .ok d) : dimOk d := by
  unfold uniqueness_check at h
  cases hcc : colCheck (cfgGet config "uniqueness_col" .null) df.cols with
  | error e => rw [hcc] at h; simp [Bind.bind, Except.bind] at h
  | ok c? =>
      rw [hcc] at h
      simp only [Bind.bind, Except.bind, pure, Except.pure] at h
      cases c? with
      | none => simp only [Except.ok.injEq] at h; subst h; trivial
      | some c =>
          simp only [Except.ok.injEq] at h
          subst h
          simp only [dimOk]
          split
          · exact calculate_percentage_bounds
              (List.Sublist.length_le (List.dedup_sublist _))
          · norm_num

theorem timeliness_check_dimOk {now : Int} {df : Frame} {config : Config}
    {d : DimResult} (h : timeliness_check now df config = .ok d) : dimOk d := by
  unfold timeliness_check at h
  cases hcc : colCheck (cfgGet config "timeliness_col" .null) df.cols with
  | error e => rw [hcc] at h; simp [Bind.bind, Except.bind] at h
  | ok c? =>
      rw [hcc] at h
      simp only [Bind.bind, Except.bind, pure, Except.pure] at h
      cases c? with
      | none => simp only [Except.ok.injEq] at h; subst h; trivial
      | some c =>
          have hc : c ∈ df.cols := colCheck_some hcc
          simp only [] at h
          by_cases hemp : ((df.colVals c).filterMap Cell.toDate).isEmpty = true
          · rw [if_pos hemp] at h
            simp only [Except.ok.injEq] at h; subst h; trivial
          · rw [if_neg hemp] at h
            cases han : asNum (cfgGet config "timeliness_days" (.int 90)) with
            | none =>
                rw [han] at h
                simp only [Except.ok.injEq] at h; subst h; trivial
            | some dd =>
                rw [han] at h
                simp only [Except.ok.injEq] at h
                subst h
                refine calculate_percentage_bounds ?_
                calc List.countP _ ((df.colVals c).filterMap Cell.toDate)
                    ≤ ((df.colVals c).filterMap Cell.toDate).length :=
                      List.countP_le_length _
                  _ ≤ (df.colVals c).length := List.length_filterMap_le _ _
                  _ = df.nrows := length_colVals hc

theorem validity_check_dimOk {df : Frame} {config : Config} {d : DimResult}
    (h : validity_check df config = .ok d) : dimOk d := by
  unfold validity_check at h
  cases hcc : colCheck (cfgGet config "validity_col" .null) df.cols with
  | error e => rw [hcc] at h; simp [Bind.bind, Except.bind] at h
  | ok c? =>
      rw [hcc] at h
      simp only [Bind.bind, Except.bind, pure, Except.pure] at h
      cases c? with
      | none => simp only [Except.ok.injEq] at h; subst h; trivial
      | some c =>
          have hc : c ∈ df.cols := colCheck_some hcc
          simp only [Except.ok.injEq] at h
          subst h
          have hlen : ((df.colVals c).filterMap Cell.toNumeric).length ≤ df.nrows :=
            le_of_le_of_eq (List.length_filterMap_le _ _) (length_colVals hc)
          refine calculate_percentage_bounds ?_
          split
          · split
            · exact (List.countP_le_length _).trans hlen
            · exact hlen
          · exact hlen

theorem consistency_check_dimOk {df : Frame} {config : Config} {d : DimResult}
    (h : consistency_check df config = .ok d) : dimOk d := by
  unfold consistency_check at h
  cases hcc : colCheck (cfgGet config "consistency_col" .null) df.cols with
  | error e => rw [hcc] at h; simp [Bind.bind, Except.bind] at h
  | ok c? =>
      rw [hcc] at h
      simp only [Bind.bind, Except.bind, pure, Except.pure] at h
      have hc : ∀ c, c? = some c → c ∈ df.cols := by
        intro c hcq
        subst hcq
        exact colCheck_some hcc
      split at h
      · rename_i s lo hi heq1
        split at h
        · simp only [Except.ok.injEq] at h
          subst h
          refine calculate_percentage_bounds ?_
          calc List.countP _ ((df.colVals s).map Cell.toNumeric)
              ≤ ((df.colVals s).map Cell.toNumeric).length :=
                List.countP_le_length _
            _ = (df.colVals s).length := List.length_map _ _
            _ = df.nrows := length_colVals (hc s rfl)
        · simp only [Except.ok.injEq] at h; subst h; trivial
      · simp only [Except.ok.injEq] at h; subst h; trivial

theorem run_mock_ok_parts {now : Int} {df : Frame} {config : Config}
    {r : DamaResults} (h : run_mock_dama_checks now df config = .ok r) :
    completeness_check df config = .ok r.completeness ∧
    uniqueness_check df config = .ok r.uniqueness ∧
    timeliness_check now df config = .ok r.timeliness ∧
    validity_check df config = .ok r.validity ∧
    consistency_check df config = .ok r.consistency := by
  unfold run_mock_dama_checks at h
  cases h1 : completeness_check df config with
  | error e => rw [h1] at h; simp [Bind.bind, Except.bind] at h
  | ok c =>
  rw [h1] at h
  simp only [Bind.bind, Except.bind] at h
  cases h2 : uniqueness_check df config with
  | error e => rw [h2] at h; simp [Bind.bind, Except.bind] at h
  | ok u =>
  rw [h2] at h
  simp only [Bind.bind, Except.bind] at h
  cases h3 : timeliness_check now df config with
  | error e => rw [h3] at h; simp [Bind.bind, Except.bind] at h
  | ok t =>
  rw [h3] at h
  simp only [Bind.bind, Except.bind] at h
  cases h4 : validity_check df config with
  | error e => rw [h4] at h; simp [Bind.bind, Except.bind] at h
  | ok v =>
  rw [h4] at h
  simp only [Bind.bind, Except.bind] at h
  cases h5 : consistency_check df config with
  | error e => rw [h5] at h; simp [Bind.bind, Except.bind] at h
  | ok s =>
  rw [h5] at h
  simp only [Bind.bind, Except.bind, pure, Except.pure, Except.ok.injEq] at h
  subst h
  exact ⟨rfl, rfl, rfl, rfl, rfl⟩

/-- C4: for every non-empty dataset and every rule configuration, each of the
five dimension results the scorer produces is either a number within
[0, 100] or one of the two sentinels; no dimension yields a number below 0 or
above 100. -/
theorem dama_scores_in_range (now : Int) (df : Frame) (config : Config)
    (r : DamaResults) (hne : df.rows ≠ [])
    (h : run_mock_dama_checks now df config = Except.ok r) :
    dimOk r.completeness ∧ dimOk r.uniqueness ∧ dimOk r.timeliness ∧
      dimOk r.validity ∧ dimOk r.consistency := by
  obtain ⟨h1, h2, h3, h4, h5⟩ := run_mock_ok_parts h
  exact ⟨completeness_check_dimOk h1, uniqueness_check_dimOk h2,
    timeliness_check_dimOk h3, validity_check_dimOk h4,
    consistency_check_dimOk h5⟩

theorem dama_scores_in_range_witness :
    wdf1.rows ≠ [] ∧
    run_mock_dama_checks 0 wdf1 [] = Except.ok damaAllNA ∧
    (dimOk damaAllNA.completeness ∧ dimOk damaAllNA.uniqueness ∧
      dimOk damaAllNA.timeliness ∧ dimOk damaAllNA.validity ∧
      dimOk damaAllNA.consistency) :=
  ⟨by simp [wdf1], rfl,
    dama_scores_in_range 0 wdf1 [] damaAllNA (by simp [wdf1]) rfl⟩

/-- C3: the aggregate trust score equals the arithmetic mean of exactly the
numeric dimension results, rounded to one decimal place; when no dimension
result is numeric (or the dataset is empty and no dimensions are produced at
all) the trust score is 0. -/
theorem trust_score_is_mean (now : Int) (df : Frame) (config : Config)
    (q : ℚ) (r? : Option DamaResults)
    (h : simulate_sql_analysis now df config = .ok (q, r?)) :
    (r? = none → q = 0) ∧
    ∀ r, r? = some r →
      q = if valid_scores r = [] then 0
          else round1 ((valid_scores r).sum / ((valid_scores r).length : ℚ)) := by
  unfold simulate_sql_analysis at h
  split at h
  · simp only [Except.ok.injEq, Prod.mk.injEq] at h
    obtain ⟨h1, h2⟩ := h
    subst h1
    subst h2
    exact ⟨fun _ => rfl, fun r hr => by cases hr⟩
  · cases hrm : run_mock_dama_checks now df config with
    | error e => rw [hrm] at h; simp [Except.map] at h
    | ok r =>
        rw [hrm] at h
        simp only [Except.map, Except.ok.injEq, Prod.mk.injEq] at h
        obtain ⟨h1, h2⟩ := h
        subst h1
        subst h2
        refine ⟨fun hn => (by cases hn), fun r' hr' => ?_⟩
        simp only [Option.some.injEq] at hr'
        subst hr'
        rfl

theorem trust_score_is_mean_witness :
    simulate_sql_analysis 0 wdf1 [] = Except.ok (0, some damaAllNA) ∧
    valid_scores damaAllNA = [] :=
  ⟨by
    have h := (trust_score_is_mean 0 wdf1 [] (trust_score damaAllNA)
      (some damaAllNA) rfl).2 damaAllNA rfl
    exact rfl,
   rfl⟩

theorem colCheck_str_present {c : String} {cols : List String}
    (hne : c ≠ "") (hmem : c ∈ cols) :
    colCheck (.str c) cols = .ok (some c) := by
  simp only [colCheck, if_neg hne, if_pos hmem]

/-- C5: with the `>= 0` condition, the validity score is 100 times the count
of numeric-coercible entries that are non-negative, divided by the *total*
row count, rounded to one decimal place. -/
theorem validity_score_formula (now : Int) (df : Frame) (config : Config)
    (r : DamaResults) (c : String)
    (hcol : cfgGet config "validity_col" .null = .str c) (hne : c ≠ "")
    (hmem : c ∈ df.cols)
    (hcond : cfgGet config "validity_condition" .null = .str ">= 0")
    (hrows : df.nrows ≠ 0)
    (h : run_mock_dama_checks now df config = Except.ok r) :
    r.validity = .score (round1 ((validPassCount df c : ℚ) / (df.nrows : ℚ) * 100)) := by
  have h4 := (run_mock_ok_parts h).2.2.2.1
  unfold validity_check at h4
  rw [hcol, colCheck_str_present hne hmem] at h4
  simp only [Bind.bind, Except.bind, pure, Except.pure] at h4
  rw [hcond] at h4
  simp only [if_pos rfl, eq_self_iff_true, if_true, Except.ok.injEq] at h4
  have hcnt : ((df.colVals c).filterMap Cell.toNumeric).countP (fun q => decide (0 ≤ q)) =
      validPassCount df c := by
    rw [List.countP_filterMap]
    unfold validPassCount
    congr 1
    funext x
    cases hx : x.toNumeric <;> simp [hx]
  rw [hcnt] at h4
  rw [← h4]
  unfold calculate_percentage
  rw [if_neg hrows]

theorem validity_score_formula_witness :
    cfgGet wcfgValidity "validity_col" .null = .str "TransactionAmount" ∧
    "TransactionAmount" ∈ wdfValidity.cols ∧
    wdfValidity.nrows = 100 ∧ validPassCount wdfValidity "TransactionAmount" = 95 ∧
    (∀ r : DamaResults,
      run_mock_dama_checks 0 wdfValidity wcfgValidity = Except.ok r →
      r.validity = .score (round1 ((validPassCount wdfValidity "TransactionAmount" : ℚ) /
        (wdfValidity.nrows : ℚ) * 100))) ∧
    round1 ((95 : ℚ) / (100 : ℚ) * 100) = 95 := by
  refine ⟨rfl, by decide, rfl, by decide, ?_, ?_⟩
  · intro r h
    exact validity_score_formula 0 wdfValidity wcfgValidity r "TransactionAmount"
      rfl (by decide) (by decide) rfl (by decide) h
  · rw [round1]
    have h1 : 10 * ((95:ℚ)/100*100) + 1/2 = 1901/2 := by norm_num
    rw [h1]
    have h2 : ((1901:ℚ)/2).floor = (950:ℤ) :=
      (rat_floor_eq_int_floor _).trans (Int.floor_eq_iff.2 (by norm_num))
    rw [h2]
    norm_num

/-- C6: the timeliness score is 100 times the count of parseably dated
records strictly after `now` minus the configured window, divided by the
total row count (including rows with unparseable dates), rounded to one
decimal; when no entry parses as a date, the result is the "not applicable"
sentinel. -/
theorem timeliness_score_formula (now : Int) (df : Frame) (config : Config)
    (r : DamaResults) (c : String) (days : ℚ)
    (hcol : cfgGet config "timeliness_col" .null = .str c) (hne : c ≠ "")
    (hmem : c ∈ df.cols)
    (hdays : asNum (cfgGet config "timeliness_days" (.int 90)) = some days)
    (hrows : df.nrows ≠ 0)
    (h : run_mock_dama_checks now df config = Except.ok r) :
    ((df.colVals c).filterMap Cell.toDate ≠ [] →
      r.timeliness = .score (round1
        ((((df.colVals c).filterMap Cell.toDate).countP
            (fun (t : Int) => decide ((now : ℚ) - days < (t : ℚ))) : ℚ) /
          (df.nrows : ℚ) * 100))) ∧
    ((df.colVals c).filterMap Cell.toDate = [] →
      r.timeliness = .na "N/A (No valid dates)") := by
  have h3 := (run_mock_ok_parts h).2.2.1
  unfold timeliness_check at h3
  rw [hcol, colCheck_str_present hne hmem] at h3
  simp only [Bind.bind, Except.bind, pure, Except.pure] at h3
  constructor
  · intro hnonempty
    rw [if_neg (by simpa [List.isEmpty_iff] using hnonempty)] at h3
    rw [hdays] at h3
    simp only [Except.ok.injEq] at h3
    rw [← h3]
    unfold calculate_percentage
    rw [if_neg hrows]
  · intro hempty
    rw [if_pos (by simpa [List.isEmpty_iff] using hempty)] at h3
    simp only [Except.ok.injEq] at h3
    exact h3.symm

theorem timeliness_score_formula_witness :
    (wdfDates.colVals "PurchaseDate").filterMap Cell.toDate = [100, 0] ∧
    (∀ r : DamaResults,
      run_mock_dama_checks 100 wdfDates wcfgDates = Except.ok r →
      r.timeliness = .score (round1
        ((((wdfDates.colVals "PurchaseDate").filterMap Cell.toDate).countP
            (fun (t : Int) => decide ((100 : ℚ) - 30 < (t : ℚ))) : ℚ) /
          (wdfDates.nrows : ℚ) * 100))) := by
  refine ⟨by decide, fun r h => ?_⟩
  exact (timeliness_score_formula 100 wdfDates wcfgDates r "PurchaseDate" 30
    rfl (by decide) (by decide) rfl (by decide) h).1 (by decide)

/-- C7: the uniqueness score is 100 whenever the configured column has zero
non-missing values, and otherwise 100 times the number of distinct
non-missing values divided by the non-missing count, rounded to one decimal;
when the column is not present the result is the "not applicable"
sentinel. -/
theorem uniqueness_score_formula (now : Int) (df : Frame) (config : Config)
    (r : DamaResults) (c : String)
    (hcol : cfgGet config "uniqueness_col" .null = .str c) (hne : c ≠ "")
    (h : run_mock_dama_checks now df config = Except.ok r) :
    (c ∈ df.cols →
      (((df.colVals c).filter (fun x => !x.isNull)) = [] →
        r.uniqueness = .score 100) ∧
      (((df.colVals c).filter (fun x => !x.isNull)) ≠ [] →
        r.uniqueness = .score (round1
          ((((df.colVals c).filter (fun x => !x.isNull)).dedup.length : ℚ) /
            (((df.colVals c).filter (fun x => !x.isNull)).length : ℚ) * 100)))) ∧
    (c ∉ df.cols → r.uniqueness = .na "N/A (Col missing)") := by
  have h2 := (run_mock_ok_parts h).2.1
  unfold uniqueness_check at h2
  rw [hcol] at h2
  constructor
  · intro hmem
    rw [colCheck_str_present hne hmem] at h2
    simp only [Bind.bind, Except.bind, pure, Except.pure, Except.ok.injEq] at h2
    constructor
    · intro hempty
      rw [← h2]
      rw [if_neg (by simp [hempty])]
    · intro hnonempty
      have hpos : 0 < ((df.colVals c).filter (fun x => !x.isNull)).length :=
        List.length_pos.2 hnonempty
      rw [← h2, if_pos hpos]
      unfold calculate_percentage
      rw [if_neg (Nat.pos_iff_ne_zero.1 hpos)]
  · intro hmem
    have hcc : colCheck (.str c) df.cols = .ok none := by
      simp only [colCheck, if_neg hne, if_neg hmem]
    rw [hcc] at h2
    simp only [Bind.bind, Except.bind, pure, Except.pure, Except.ok.injEq] at h2
    exact h2.symm

theorem uniqueness_score_formula_witness :
    (wdfAllNull.colVals "CustomerID").filter (fun x => !x.isNull) = [] ∧
    (∀ r : DamaResults,
      run_mock_dama_checks 0 wdfAllNull wcfgUnique = Except.ok r →
      r.uniqueness = .score 100) := by
  refine ⟨by decide, fun r h => ?_⟩
  exact ((uniqueness_score_formula 0 wdfAllNull wcfgUnique r "CustomerID"
    rfl (by decide) h).1 (by decide)).1 (by decide)

/-- C8 counterexample: a malformed config (`completeness_cols` is an int)
raises while the completeness column list is being iterated, *before* that
dimension's `try` block, so the failure is not caught and recorded as an
"error" sentinel — the whole check run aborts and no other dimension is
computed, contradicting the claim as stated. -/
theorem run_mock_uncaught_config_error :
    run_mock_dama_checks 0 wdf1 wcfgBadIter =
      Except.error "TypeError: object is not iterable" := rfl

/-- C8 (amended): a failure raised inside a dimension's guarded (`try`)
region — e.g. `pd.Timedelta` rejecting a non-numeric day count — becomes that
dimension's "error" sentinel only; every dimension's result still equals its
own standalone computation on the dataset and config, and an errored
dimension is excluded from the numeric scores feeding the aggregate trust
score.  (Failures raised while a dimension's config is fetched or its
column guard evaluated, before its `try`, abort the whole run instead — see
the counterexample.) -/
theorem dimension_error_isolated (now : Int) (df : Frame) (config : Config)
    (r : DamaResults) (h : run_mock_dama_checks now df config = Except.ok r) :
    completeness_check df config = .ok r.completeness ∧
    uniqueness_check df config = .ok r.uniqueness ∧
    timeliness_check now df config = .ok r.timeliness ∧
    validity_check df config = .ok r.validity ∧
    consistency_check df config = .ok r.consistency ∧
    ∀ e, r.timeliness = .err e →
      valid_scores r =
        [r.completeness, r.uniqueness, r.validity, r.consistency].filterMap
          numericScore := by
  obtain ⟨h1, h2, h3, h4, h5⟩ := run_mock_ok_parts h
  refine ⟨h1, h2, h3, h4, h5, fun e he => ?_⟩
  simp only [valid_scores, dimList, he, List.filterMap_cons, numericScore]

theorem dimension_error_isolated_witness :
    run_mock_dama_checks 0 wdfTimelyErr wcfgTimelyErr = Except.ok damaTimelyErr ∧
    damaTimelyErr.timeliness = .err "Error (invalid Timedelta days)" ∧
    valid_scores damaTimelyErr =
      [damaTimelyErr.completeness, damaTimelyErr.uniqueness,
        damaTimelyErr.validity, damaTimelyErr.consistency].filterMap numericScore ∧
    trust_score damaTimelyErr = 0 := by
  refine ⟨rfl, rfl, ?_, rfl⟩
  exact (dimension_error_isolated 0 wdfTimelyErr wcfgTimelyErr damaTimelyErr
    rfl).2.2.2.2.2 "Error (invalid Timedelta days)" rfl

/-- C10: the consistency guard requires the configured range to be exactly a
2-tuple; for a dataset containing the configured column, any other shape —
including the 2-element list that the tuple-valued default rule config
becomes after one serialize-then-deserialize round trip of the snapshot —
yields the "not applicable" sentinel even though the column is present. -/
theorem consistency_requires_tuple2 (df : Frame) (config : Config) (c : String)
    (hcol : cfgGet config "consistency_col" .null = .str c) (hne : c ≠ "")
    (hmem : c ∈ df.cols)
    (hshape : notTuple2 (cfgGet config "consistency_range" (.tuple [.int 1, .int 5]))) :
    consistency_check df config = .ok (.na "N/A (Col/Range missing)") ∧
    save_app_state_json [("dq_rules_config", .py (.dict default_dq_rules))] =
      [("dq_rules_config", .py (.dict (dumpJsonDict default_dq_rules)))] ∧
    loadAssignment
        [("dq_rules_config", SavedVal.py (.dict (dumpJsonDict default_dq_rules)))] =
      [("dq_rules_config", SVal.py (.dict (dumpJsonDict default_dq_rules)))] ∧
    cfgGet (dumpJsonDict default_dq_rules) "consistency_range"
        (.tuple [.int 1, .int 5]) = .list [.int 1, .int 5] := by
  refine ⟨?_, rfl, rfl, rfl⟩
  unfold consistency_check
  rw [hcol, colCheck_str_present hne hmem]
  simp only [Bind.bind, Except.bind, pure, Except.pure]
  cases hr : cfgGet config "consistency_range" (.tuple [.int 1, .int 5]) with
  | tuple xs =>
      rw [hr] at hshape
      match xs, hshape with
      | [], _ => rfl
      | [a], _ => rfl
      | a :: b :: m :: rest, _ => rfl
      | [a, b], hs => exact absurd rfl hs
  | null => rfl
  | bool b => rfl
  | int n => rfl
  | float q => rfl
  | str s => rfl
  | list xs => rfl
  | dict kvs => rfl

theorem consistency_requires_tuple2_witness :
    cfgGet (dumpJsonDict default_dq_rules) "consistency_range"
        (.tuple [.int 1, .int 5]) = .list [.int 1, .int 5] ∧
    "SatisfactionScore" ∈ wdfSat.cols ∧
    consistency_check wdfSat (dumpJsonDict default_dq_rules) =
      .ok (.na "N/A (Col/Range missing)") := by
  refine ⟨rfl, by decide, ?_⟩
  exact (consistency_requires_tuple2 wdfSat (dumpJsonDict default_dq_rules)
    "SatisfactionScore" rfl (by decide) (by decide) (by trivial)).1

/-! ## The serializer claims -/

/-- C9: when the snapshot file does not exist, or parsing it fails entirely,
the load operation resets the live state to built-in defaults and returns
`False` rather than raising. -/
theorem load_missing_or_parsefail_resets (prior : List (String × SVal))
    (genDate genTime : String) :
    load_app_state_json prior genDate genTime .missing =
      (init_session_state genDate genTime, false) ∧
    load_app_state_json prior genDate genTime .parseFail =
      (init_session_state genDate genTime, false) :=
  ⟨rfl, rfl⟩

/-- C2 counterexample: a RACI table text whose `Activity` column exists but
holds duplicate values is loaded by indexing on that non-unique column — no
fallback to the default, no warning — contradicting the claim that a
non-unique identifier column triggers the default and a warning. -/
theorem raci_nonunique_index_accepted :
    loadVal "raci_df_json" (.frameText raciDupSplit) =
      (some (.frame raciDupFrame), false) ∧
    ¬ raciDupFrame.index.Nodup ∧
    raciDupFrame ≠ default_raci_frame := by
  refine ⟨rfl, by decide, by decide⟩

/-- C2 (amended): loading the RACI table falls back to the built-in default
with a warning exactly when the `Activity` column is absent from the
reconstructed table (the same fallback applies when the text fails to
parse); when the column is present it becomes the row index whether or not
its values are unique — no uniqueness check is performed. -/
theorem raci_load_activity_dispatch (s : Split) :
    ("Activity" ∈ (ofSplit s).cols →
      loadVal "raci_df_json" (.frameText s) =
        (some (.frame ((ofSplit s).setIndex "Activity")), false)) ∧
    ("Activity" ∉ (ofSplit s).cols →
      loadVal "raci_df_json" (.frameText s) =
        (some (.frame default_raci_frame), true)) := by
  constructor <;> intro hm <;> simp [loadVal, hm]

theorem raci_load_activity_dispatch_witness :
    ("Activity" ∈ (ofSplit raciDupSplit).cols ∧
      loadVal "raci_df_json" (.frameText raciDupSplit) =
        (some (.frame ((ofSplit raciDupSplit).setIndex "Activity")), false)) ∧
    ("Activity" ∉ (ofSplit noActSplit).cols ∧
      loadVal "raci_df_json" (.frameText noActSplit) =
        (some (.frame default_raci_frame), true)) :=
  ⟨⟨by decide, (raci_load_activity_dispatch raciDupSplit).1 (by decide)⟩,
   ⟨by decide, (raci_load_activity_dispatch noActSplit).2 (by decide)⟩⟩

/-! ## Association-list plumbing for the round trip -/

theorem lookup_filterMap_keys (g : String → Option SavedVal) :
    ∀ (ks : List String), ks.Nodup → ∀ k : String,
    (ks.filterMap fun k' => (g k').map fun sv => (k', sv)).lookup k =
      if k ∈ ks then g k else none := by
  intro ks
  induction ks with
  | nil => intro _ k; simp
  | cons a ks ih =>
      intro hnd k
      have hnd' : ks.Nodup := hnd.of_cons
      have hanotin : a ∉ ks := by
        intro hmm
        exact (List.nodup_cons.1 hnd).1 hmm
      by_cases hk : k = a
      · subst hk
        cases hga : g k with
        | none =>
            simp only [List.filterMap_cons, hga, Option.map_none']
            rw [ih hnd' k]
            simp [hanotin, hga]
        | some sv =>
            simp only [List.filterMap_cons, hga, Option.map_some']
            simp [List.lookup_cons_self, hga]
      · cases hga : g a with
        | none =>
            simp only [List.filterMap_cons, hga, Option.map_none']
            rw [ih hnd' k]
            simp [List.mem_cons, hk]
        | some sv =>
            simp only [List.filterMap_cons, hga, Option.map_some']
            rw [List.lookup_cons]
            have hbeq : (k == a) = false := beq_false_of_ne hk
            rw [hbeq]
            rw [ih hnd' k]
            simp [List.mem_cons, hk]

theorem keys_to_persist_nodup : keys_to_persist.Nodup := by decide

theorem lookup_save_app_state (state : List (String × SVal)) (k : String) :
    (save_app_state_json state).lookup k =
      if k ∈ keys_to_persist then (state.lookup k).bind (saveVal k) else none := by
  unfold save_app_state_json
  exact lookup_filterMap_keys (fun k' => (state.lookup k').bind (saveVal k'))
    keys_to_persist keys_to_persist_nodup k

theorem loadAssignment_keys_sublist (doc : List (String × SavedVal)) :
    ((loadAssignment doc).map Prod.fst).Sublist (doc.map Prod.fst) := by
  induction doc with
  | nil => simp [loadAssignment]
  | cons a ds ih =>
      simp only [loadAssignment, List.filterMap_cons]
      cases h : (loadVal a.1 a.2).1 with
      | none =>
          simp only [List.map_cons]
          exact (ih).trans (List.sublist_cons_self _ _)
      | some v =>
          simp only [Option.map_some', List.map_cons]
          exact (ih).cons₂ _

theorem lookup_loadAssignment_not_mem (doc : List (String × SavedVal)) (k : String)
    (hk : k ∉ doc.map Prod.fst) : (loadAssignment doc).lookup k = none := by
  induction doc with
  | nil => simp [loadAssignment]
  | cons a ds ih =>
      simp only [List.map_cons, List.mem_cons] at hk
      push_neg at hk
      simp only [loadAssignment, List.filterMap_cons]
      cases h : (loadVal a.1 a.2).1 with
      | none => exact ih hk.2
      | some v =>
          simp only [Option.map_some']
          rw [List.lookup_cons]
          rw [beq_false_of_ne hk.1]
          exact ih hk.2

theorem loadAssignment_cons (a : String × SavedVal) (ds : List (String × SavedVal)) :
    loadAssignment (a :: ds) =
      match (loadVal a.1 a.2).1 with
      | none => loadAssignment ds
      | some v => (a.1, v) :: loadAssignment ds := by
  simp only [loadAssignment, List.filterMap_cons]
  cases h : (loadVal a.1 a.2).1 <;> rfl

theorem lookup_loadAssignment (doc : List (String × SavedVal)) (k : String)
    (hnd : (doc.map Prod.fst).Nodup) :
    (loadAssignment doc).lookup k =
      (doc.lookup k).bind fun sv => (loadVal k sv).1 := by
  induction doc with
  | nil => simp [loadAssignment]
  | cons a ds ih =>
      obtain ⟨a1, a2⟩ := a
      simp only [List.map_cons] at hnd
      have hnd' := hnd.of_cons
      have hanotin : a1 ∉ ds.map Prod.fst := (List.nodup_cons.1 hnd).1
      rw [loadAssignment_cons]
      by_cases hk : k = a1
      · subst hk
        cases h : (loadVal k a2).1 with
        | none =>
            show (loadAssignment ds).lookup k =
              (((k, a2) :: ds).lookup k).bind fun sv => (loadVal k sv).1
            rw [lookup_loadAssignment_not_mem ds k hanotin, List.lookup_cons_self]
            simp [h]
        | some v =>
            show ((k, v) :: loadAssignment ds).lookup k =
              (((k, a2) :: ds).lookup k).bind fun sv => (loadVal k sv).1
            rw [List.lookup_cons_self, List.lookup_cons_self]
            simp [h]
      · cases h : (loadVal a1 a2).1 with
        | none =>
            show (loadAssignment ds).lookup k =
              (((a1, a2) :: ds).lookup k).bind fun sv => (loadVal k sv).1
            rw [List.lookup_cons]
            simp only [beq_false_of_ne hk]
            exact ih hnd'
        | some v =>
            show (((a1, v) :: loadAssignment ds)).lookup k =
              (((a1, a2) :: ds).lookup k).bind fun sv => (loadVal k sv).1
            rw [List.lookup_cons, List.lookup_cons]
            simp only [beq_false_of_ne hk]
            exact ih hnd'

theorem filterMap_keys_sublist (g : String → Option SavedVal) (ks : List String) :
    ((ks.filterMap fun k' => (g k').map fun sv => (k', sv)).map Prod.fst).Sublist ks := by
  induction ks with
  | nil => simp
  | cons a ks ih =>
      simp only [List.filterMap_cons]
      cases h : g a with
      | none =>
          simp only [Option.map_none']
          exact ih.trans (List.sublist_cons_self _ _)
      | some sv =>
          simp only [Option.map_some', List.map_cons]
          exact ih.cons₂ _

theorem save_doc_keys_nodup (state : List (String × SVal)) :
    ((save_app_state_json state).map Prod.fst).Nodup :=
  (filterMap_keys_sublist _ keys_to_persist).nodup keys_to_persist_nodup

theorem persisted_not_df_json :
    ∀ k ∈ keys_to_persist, k ≠ "raci_df_json" → endsWithDfJson k = false := by
  decide

/-! ## Per-shape round-trip lemmas -/

theorem zipWith_cons_getD (l1 : List Cell) (l2 : List (List Cell))
    (h : l1.length = l2.length) :
    (List.zipWith (· :: ·) l1 l2).map (fun r => r.getD 0 .null) = l1 := by
  induction l1 generalizing l2 with
  | nil => simp
  | cons a l1 ih =>
      cases l2 with
      | nil => simp at h
      | cons b l2 =>
          simp only [List.zipWith_cons_cons, List.map_cons, List.getD_cons_zero]
          rw [ih l2 (by simpa using h)]

theorem zipWith_cons_eraseIdx (l1 : List Cell) (l2 : List (List Cell))
    (h : l1.length = l2.length) :
    (List.zipWith (· :: ·) l1 l2).map (fun r => r.eraseIdx 0) = l2 := by
  induction l1 generalizing l2 with
  | nil => cases l2 with
      | nil => simp
      | cons b l2 => simp at h
  | cons a l1 ih =>
      cases l2 with
      | nil => simp at h
      | cons b l2 =>
          simp only [List.zipWith_cons_cons, List.map_cons, List.eraseIdx_cons_zero]
          rw [ih l2 (by simpa using h)]

theorem raci_roundtrip (f : Frame) (hwf : f.WF)
    (hidx : f.indexName = some "Activity") :
    loadVal "raci_df_json" (.frameText (toSplit f.resetIndex)) =
      (some (.frame f), false) := by
  obtain ⟨fin, fidx, fcols, frows⟩ := f
  obtain ⟨hlen, _⟩ := hwf
  simp only at hidx hlen
  subst hidx
  unfold loadVal
  rw [if_pos rfl]
  show (if "Activity" ∈ (ofSplit (toSplit (Frame.resetIndex ⟨some "Activity", fidx, fcols, frows⟩))).cols
    then _ else _) = _
  unfold Frame.resetIndex toSplit ofSplit
  simp only [Option.getD_some]
  rw [if_pos (List.mem_cons_self _ _)]
  unfold Frame.setIndex
  simp only [List.indexOf_cons_self, List.eraseIdx_cons_zero]
  rw [zipWith_cons_getD fidx frows hlen, zipWith_cons_eraseIdx fidx frows hlen]

theorem history_roundtrip (entries : List (Timestamp × PyVal))
    (h : ∀ te ∈ entries, jsonShape te.2 = true) :
    loadVal "maturity_assessments_history"
        (.py (.dict (entries.map fun te => (tsToString te.1, dumpJson te.2)))) =
      (some (.history entries), false) := by
  unfold loadVal
  rw [if_neg (by decide), if_neg (by decide), if_pos rfl]
  simp only
  have h1 : (entries.map fun te => (tsToString te.1, dumpJson te.2)).filterMap
      (fun kv => (parseTimestamp kv.1).map fun t => (t, kv.2)) = entries := by
    induction entries with
    | nil => rfl
    | cons te tes ih =>
        simp only [List.map_cons, List.filterMap_cons, parseTimestamp_tsToString,
          Option.map_some']
        rw [dumpJson_of_jsonShape (h te (List.mem_cons_self te tes))]
        rw [ih fun x hx => h x (List.mem_cons_of_mem te hx)]
  have h2 : ((entries.map fun te => (tsToString te.1, dumpJson te.2)).any
      fun kv => (parseTimestamp kv.1).isNone) = false := by
    simp only [List.any_eq_false]
    intro kv hkv
    simp only [List.mem_map] at hkv
    obtain ⟨te, _, rfl⟩ := hkv
    simp [parseTimestamp_tsToString]
  rw [h1, h2]

theorem pyToCell_cellToPyD (c : Cell) (h : (cellToPy c).isSome = true) :
    pyToCell (cellToPyD c) = c := by
  cases c with
  | null => rfl
  | str s => rfl
  | bool b => rfl
  | date d => simp [cellToPy] at h
  | num q =>
      unfold cellToPyD cellToPy
      by_cases hq : q.den = 1
      · simp only [hq, if_pos rfl, Option.getD_some]
        simp [pyToCell, Rat.coe_int_num_of_den_eq_one hq]
      · simp only [if_neg hq, Option.getD_some]
        rfl

theorem extractDicts_map_dict (l : List (List (String × PyVal))) :
    extractDicts (l.map fun r => PyVal.dict r) = some l := by
  induction l with
  | nil => rfl
  | cons r rs ih => simp [extractDicts, ih]

theorem firstDedup_append_of_subset :
    ∀ (cols : List String), cols.Nodup →
    ∀ rest : List String, (∀ x ∈ rest, x ∈ cols) →
      firstDedup (cols ++ rest) = cols := by
  intro cols
  induction cols with
  | nil =>
      intro _ rest h
      have hr : rest = [] :=
        List.eq_nil_iff_forall_not_mem.2 fun x hx => by simpa using h x hx
      simp [hr, firstDedup]
  | cons c cs ih =>
      intro hnd rest h
      simp only [List.cons_append, firstDedup]
      congr 1
      rw [List.filter_append]
      have h1 : cs.filter (fun x => decide (x ≠ c)) = cs := by
        apply List.filter_eq_self.2
        intro x hx
        have hxc : x ≠ c := fun e => (List.nodup_cons.1 hnd).1 (e ▸ hx)
        simp [hxc]
      have hsub : ∀ x ∈ rest.filter (fun x => decide (x ≠ c)), x ∈ cs := by
        intro x hx
        obtain ⟨hx1, hx2⟩ := List.mem_filter.1 hx
        have hxc : x ≠ c := of_decide_eq_true hx2
        rcases List.mem_cons.1 (h x hx1) with rfl | hmm
        · exact absurd rfl hxc
        · exact hmm
      rw [h1]
      exact ih (List.nodup_cons.1 hnd).2 _ hsub

theorem recordKeys_const (recs : List (List (String × PyVal))) (cols : List String)
    (hnd : cols.Nodup) (hne : recs ≠ [])
    (hkeys : ∀ r ∈ recs, r.map Prod.fst = cols) :
    recordKeys recs = cols := by
  cases recs with
  | nil => exact absurd rfl hne
  | cons r rs =>
      unfold recordKeys
      simp only [List.map_cons, List.flatten_cons,
        hkeys r (List.mem_cons_self r rs)]
      apply firstDedup_append_of_subset cols hnd
      intro x hx
      obtain ⟨l, hl, hxl⟩ := List.mem_flatten.1 hx
      obtain ⟨r', hr', rfl⟩ := List.mem_map.1 hl
      rw [hkeys r' (List.mem_cons_of_mem r hr')] at hxl
      exact hxl

theorem row_lookup_roundtrip :
    ∀ (cols : List String) (r : List Cell), cols.Nodup →
      r.length = cols.length → (∀ c ∈ r, (cellToPy c).isSome = true) →
      (cols.map fun cname =>
        match ((cols.zip r).map fun cv => (cv.1, cellToPyD cv.2)).lookup cname with
        | some v => pyToCell v
        | none => Cell.null) = r := by
  intro cols
  induction cols with
  | nil =>
      intro r _ hlen _
      simp only [List.length_nil, List.length_eq_zero] at hlen
      simp [hlen]
  | cons c cs ih =>
      intro r hnd hlen hsafe
      cases r with
      | nil => simp at hlen
      | cons a as =>
          simp only [List.zip_cons_cons, List.map_cons, List.lookup_cons_self]
          rw [pyToCell_cellToPyD a (hsafe a (List.mem_cons_self a as))]
          congr 1
          have hstep : ∀ c' ∈ cs,
              (match (((c, cellToPyD a) :: (cs.zip as).map fun cv =>
                  (cv.1, cellToPyD cv.2)).lookup c') with
                | some v => pyToCell v
                | none => Cell.null) =
              (match ((cs.zip as).map fun cv => (cv.1, cellToPyD cv.2)).lookup c' with
                | some v => pyToCell v
                | none => Cell.null) := by
            intro c' hc'
            have hne : c' ≠ c := fun e => (List.nodup_cons.1 hnd).1 (e ▸ hc')
            rw [List.lookup_cons]
            simp only [beq_false_of_ne hne]
          rw [List.map_congr_left hstep]
          exact ih as (List.nodup_cons.1 hnd).2 (by simpa using hlen)
            fun x hx => hsafe x (List.mem_cons_of_mem a hx)

theorem frameRecords_eq_map (f : Frame) :
    frameRecords f =
      (f.rows.map fun r => (f.cols.zip r).map fun cv => (cv.1, cellToPyD cv.2)).map
        fun rec => PyVal.dict rec := by
  unfold frameRecords
  rw [List.map_map]
  rfl

theorem frameOfRecords_frameRecords (f : Frame) (hrep : RoadFrameRep f) :
    frameOfRecords
        (f.rows.map fun r => (f.cols.zip r).map fun cv => (cv.1, cellToPyD cv.2)) =
      f := by
  obtain ⟨⟨hlen_idx, hlen_rows⟩, hin, hidx, hnd, hne, hsafe⟩ := hrep
  have hkeys : ∀ rec ∈ f.rows.map fun r =>
      (f.cols.zip r).map fun cv => (cv.1, cellToPyD cv.2),
      rec.map Prod.fst = f.cols := by
    intro rec hrec
    obtain ⟨r, hr, rfl⟩ := List.mem_map.1 hrec
    rw [List.map_map]
    have : (Prod.fst ∘ fun cv : String × Cell => (cv.1, cellToPyD cv.2)) = Prod.fst := by
      funext cv; rfl
    rw [this]
    exact List.map_fst_zip f.cols r (le_of_eq (hlen_rows r hr).symm)
  have hcols : recordKeys
      (f.rows.map fun r => (f.cols.zip r).map fun cv => (cv.1, cellToPyD cv.2)) =
      f.cols :=
    recordKeys_const _ f.cols hnd (by simpa using hne) hkeys
  unfold frameOfRecords
  obtain ⟨fin, fidx, fcols, frows⟩ := f
  simp only [Frame.nrows] at hin hidx hcols hlen_rows hsafe ⊢
  subst hin
  refine (Frame.mk.injEq _ _ _ _ _ _ _ _).mpr ⟨rfl, ?_, hcols, ?_⟩
  · rw [List.length_map]
    exact hidx.symm
  · rw [hcols, List.map_map]
    have : ∀ r ∈ frows,
        ((fun rec => fcols.map fun c =>
            match rec.lookup c with
            | some v => pyToCell v
            | none => Cell.null) ∘
          fun r => (fcols.zip r).map fun cv => (cv.1, cellToPyD cv.2)) r = id r := by
      intro r hr
      simp only [Function.comp_apply, id_eq]
      exact row_lookup_roundtrip fcols r hnd (hlen_rows r hr) fun c hc =>
        hsafe r hr c hc
    rw [List.map_congr_left this, List.map_id]

theorem roadmap_roundtrip (cats : List (String × Frame))
    (hrep : ∀ cf ∈ cats, RoadFrameRep cf.2) :
    loadVal "roadmap_data"
        (.py (.dict (cats.map fun cf => (cf.1, .list (frameRecords cf.2))))) =
      (some (.frameDict cats), false) := by
  unfold loadVal
  rw [if_neg (by decide), if_pos rfl]
  simp only
  have hcats : loadRoadmapCats
      (cats.map fun cf => (cf.1, PyVal.list (frameRecords cf.2))) = some cats := by
    induction cats with
    | nil => rfl
    | cons cf rest ih =>
        obtain ⟨cat, fr⟩ := cf
        simp only [List.map_cons, loadRoadmapCats, recordsOfPy]
        rw [frameRecords_eq_map fr, extractDicts_map_dict]
        simp only
        rw [ih fun x hx => hrep x (List.mem_cons_of_mem _ hx)]
        rw [frameOfRecords_frameRecords fr (hrep ⟨cat, fr⟩ (List.mem_cons_self _ _))]
        rfl
  rw [hcats]

theorem loadVal_plain_key (k : String) (hk : k ∈ keys_to_persist)
    (h1 : k ≠ "raci_df_json") (h2 : k ≠ "roadmap_data")
    (h3 : k ≠ "maturity_assessments_history") (pv : PyVal) :
    loadVal k (.py pv) = (some (.py pv), false) := by
  unfold loadVal
  rw [if_neg h1, if_neg h2, if_neg h3]
  rw [persisted_not_df_json k hk h1]
  simp only [Bool.false_eq_true, if_false]

theorem saveVal_plain_key (k : String) (h2 : k ≠ "roadmap_data")
    (h3 : k ≠ "maturity_assessments_history") (pv : PyVal) :
    saveVal k (.py pv) = some (.py (dumpJson pv)) := by
  show (if k = "roadmap_data" then
      match pv with
      | PyVal.dict _ => some (SavedVal.py (PyVal.dict []))
      | _ => some (SavedVal.py (dumpJson pv))
    else if k = "maturity_assessments_history" then
      match pv with
      | PyVal.dict kvs => some (SavedVal.py (PyVal.dict (dumpJsonDict kvs)))
      | _ => some (SavedVal.py (dumpJson pv))
    else some (SavedVal.py (dumpJson pv))) = some (.py (dumpJson pv))
  rw [if_neg h2, if_neg h3]

theorem saveVal_raci (f : Frame) :
    saveVal "raci_df_json" (.frame f) =
      some (.frameText (toSplit f.resetIndex)) := rfl

theorem saveVal_roadmap_frames (cats : List (String × Frame)) :
    saveVal "roadmap_data" (.frameDict cats) =
      some (.py (.dict (cats.map fun cf => (cf.1, .list (frameRecords cf.2))))) := rfl

theorem saveVal_history (entries : List (Timestamp × PyVal)) :
    saveVal "maturity_assessments_history" (.history entries) =
      some (.py (.dict (entries.map fun te => (tsToString te.1, dumpJson te.2)))) := rfl

theorem saveVal_npInt (k : String) (n : Int) :
    saveVal k (.npInt n) = some (.py (.int n)) := rfl

theorem saveVal_npFloat (k : String) (q : ℚ) :
    saveVal k (.npFloat q) = some (.py (.float q)) := rfl

theorem saveVal_npArray (k : String) (xs : List PyVal) :
    saveVal k (.npArray xs) = some (.py (.list (dumpJsonList xs))) := rfl

theorem dumpJsonList_of_jsonShapeList {xs : List PyVal}
    (h : jsonShapeList xs = true) : dumpJsonList xs = xs :=
  dumpJsonList_eq_of_forall fun x hx =>
    dumpJson_of_jsonShape (jsonShapeList_mem h hx)

/-- C1: serializing a snapshot whose keys hold representable values and then
deserializing it reproduces an equivalent value for every such key — tables
come back as tables and history timestamps as point-in-time values (the only
change being numpy scalars/arrays coerced to their native counterparts,
`normalizeSVal`) — while keys whose values the serializer cannot represent
are simply absent from the round trip rather than causing an error. -/
theorem snapshot_roundtrip (state : List (String × SVal)) (k : String) (v : SVal)
    (hlk : state.lookup k = some v) :
    (Representable k v →
      (loadAssignment (save_app_state_json state)).lookup k =
        some (normalizeSVal v)) ∧
    ((v = .other ∨ k ∉ keys_to_persist) →
      (loadAssignment (save_app_state_json state)).lookup k = none) := by
  have hmain : (loadAssignment (save_app_state_json state)).lookup k =
      (if k ∈ keys_to_persist then (state.lookup k).bind (saveVal k) else none).bind
        fun sv => (loadVal k sv).1 := by
    rw [lookup_loadAssignment _ _ (save_doc_keys_nodup state),
      lookup_save_app_state]
  constructor
  · intro hrep
    obtain ⟨hkmem, hshape⟩ := hrep
    rw [hmain, if_pos hkmem, hlk]
    by_cases hk1 : k = "raci_df_json"
    · subst hk1
      rw [if_pos rfl] at hshape
      cases v with
      | frame f =>
          obtain ⟨hwf, hidx, -, -, -⟩ := hshape
          show ((saveVal "raci_df_json" (.frame f)).bind
            fun sv => (loadVal "raci_df_json" sv).1) = _
          rw [saveVal_raci]
          simp only [Option.some_bind]
          rw [raci_roundtrip f hwf hidx]
          rfl
      | frameDict cats => exact absurd hshape (by simp)
      | history entries => exact absurd hshape (by simp)
      | py pv => exact absurd hshape (by simp)
      | npInt n => exact absurd hshape (by simp)
      | npFloat q => exact absurd hshape (by simp)
      | npArray xs => exact absurd hshape (by simp)
      | other => exact absurd hshape (by simp)
    · rw [if_neg hk1] at hshape
      by_cases hk2 : k = "roadmap_data"
      · subst hk2
        rw [if_pos rfl] at hshape
        cases v with
        | frameDict cats =>
            show ((saveVal "roadmap_data" (.frameDict cats)).bind
              fun sv => (loadVal "roadmap_data" sv).1) = _
            rw [saveVal_roadmap_frames]
            simp only [Option.some_bind]
            rw [roadmap_roundtrip cats hshape]
            rfl
        | frame f => exact absurd hshape (by simp)
        | history entries => exact absurd hshape (by simp)
        | py pv => exact absurd hshape (by simp)
        | npInt n => exact absurd hshape (by simp)
        | npFloat q => exact absurd hshape (by simp)
        | npArray xs => exact absurd hshape (by simp)
        | other => exact absurd hshape (by simp)
      · rw [if_neg hk2] at hshape
        by_cases hk3 : k = "maturity_assessments_history"
        · subst hk3
          rw [if_pos rfl] at hshape
          cases v with
          | history entries =>
              show ((saveVal "maturity_assessments_history"
                  (.history entries)).bind
                fun sv => (loadVal "maturity_assessments_history" sv).1) = _
              rw [saveVal_history]
              simp only [Option.some_bind]
              rw [history_roundtrip entries hshape]
              rfl
          | frame f => exact absurd hshape (by simp)
          | frameDict cats => exact absurd hshape (by simp)
          | py pv => exact absurd hshape (by simp)
          | npInt n => exact absurd hshape (by simp)
          | npFloat q => exact absurd hshape (by simp)
          | npArray xs => exact absurd hshape (by simp)
          | other => exact absurd hshape (by simp)
        · rw [if_neg hk3] at hshape
          cases v with
          | py pv =>
              show ((saveVal k (.py pv)).bind fun sv => (loadVal k sv).1) = _
              rw [saveVal_plain_key k hk2 hk3 pv]
              simp only [Option.some_bind]
              rw [loadVal_plain_key k hkmem hk1 hk2 hk3]
              rw [dumpJson_of_jsonShape hshape]
              rfl
          | npInt n =>
              show ((saveVal k (.npInt n)).bind fun sv => (loadVal k sv).1) = _
              rw [saveVal_npInt]
              simp only [Option.some_bind]
              rw [loadVal_plain_key k hkmem hk1 hk2 hk3]
              rfl
          | npFloat q =>
              show ((saveVal k (.npFloat q)).bind fun sv => (loadVal k sv).1) = _
              rw [saveVal_npFloat]
              simp only [Option.some_bind]
              rw [loadVal_plain_key k hkmem hk1 hk2 hk3]
              rfl
          | npArray xs =>
              show ((saveVal k (.npArray xs)).bind fun sv => (loadVal k sv).1) = _
              rw [saveVal_npArray]
              simp only [Option.some_bind]
              rw [loadVal_plain_key k hkmem hk1 hk2 hk3]
              rw [dumpJsonList_of_jsonShapeList hshape]
              rfl
          | frame f => exact absurd hshape (by simp)
          | frameDict cats => exact absurd hshape (by simp)
          | history entries => exact absurd hshape (by simp)
          | other => exact absurd hshape (by simp)
  · intro hother
    rw [hmain]
    cases hother with
    | inl hv =>
        subst hv
        by_cases hk : k ∈ keys_to_persist
        · rw [if_pos hk, hlk]
          show ((saveVal k .other).bind fun sv => (loadVal k sv).1) = none
          rfl
        · rw [if_neg hk]
          rfl
    | inr hk =>
        rw [if_neg hk]
        rfl

theorem snapshot_roundtrip_witness :
    (init_session_state "2026-01-01" "12:00:00").lookup "raci_df_json" =
      some (SVal.frame default_raci_frame) ∧
    (loadAssignment (save_app_state_json
        (init_session_state "2026-01-01" "12:00:00"))).lookup "raci_df_json" =
      some (normalizeSVal (SVal.frame default_raci_frame)) ∧
    (loadAssignment (save_app_state_json
        [("uploaded_logo_bytes", SVal.other)])).lookup "uploaded_logo_bytes" = none :=
  ⟨rfl,
   (snapshot_roundtrip (init_session_state "2026-01-01" "12:00:00") "raci_df_json"
      (SVal.frame default_raci_frame) rfl).1
     ⟨by decide, ⟨by decide, by decide⟩, rfl, by decide, by decide, by decide⟩,
   (snapshot_roundtrip [("uploaded_logo_bytes", SVal.other)] "uploaded_logo_bytes"
      SVal.other rfl).2 (Or.inl rfl)⟩
